import Mathlib

/-!
Shallow embedding of the Notion→Discord reconciliation engine of `my-app`:
`src/lib/services/sync.ts` (SyncService), `src/lib/services/discord-server.ts`
(DiscordServerService), `src/lib/services/notion.ts` (NotionService) and the
interaction webhook `src/app/api/sync/webhook/route.ts`.

The database (SQLite via drizzle, schema in `src/lib/db/schema.ts`) is modelled
as explicit lists of rows threaded through every operation.  The external
world (the Notion API and the Discord API reached through the service
wrappers) is an oracle `Env`: each outward call consults the oracle and is
recorded in a call trace, and each database primitive can be made to fail by
the oracle, mirroring a rejected promise.  JavaScript exceptions are
`Except String`; `try/catch` blocks are translated as `match` on the result,
and state mutations performed before a throw survive it, exactly as they do
in the source.
-/

/-- Canonical tracker record, `NotionIssue` of `src/lib/services/notion.ts`
(the `title`/`description`/`priority`/`assignee` aliases of the same data are
omitted; they are copies of `bugName`/`bugDescription`/`severity`). -/
structure NotionIssue where
  id : String
  status : String
  project : String
  bugName : String
  bugDescription : String
  attachedFiles : List String
  severity : String
  url : String
deriving DecidableEq

/-- Row of `notion_connections` (fields the engine reads). -/
structure NotionConnection where
  id : String
  name : String
  isActive : Bool
deriving DecidableEq

/-- Row of `discord_channels` (fields the engine reads): `id` is the local
primary key, `channelId` the Discord-side channel snowflake. -/
structure DiscordChannel where
  id : String
  name : String
  channelId : String
  isActive : Bool
deriving DecidableEq

/-- Row of `sync_mappings`. -/
structure SyncMapping where
  id : String
  notionConnectionId : String
  discordChannelId : String
  projectFilter : Option String
  isActive : Bool
deriving DecidableEq

/-- Row of the `issues` cache table.  `sync.ts` never writes `issueId` or
`notionPageId` (they stay NULL); the webhook reads `notionPageId`.
Timestamp columns with database defaults other than the ones the engine
assigns are omitted. -/
structure Issue where
  id : String
  issueId : Option String
  notionPageId : Option String
  notionConnectionId : String
  status : String
  project : String
  bugName : String
  bugDescription : String
  attachedFiles : String
  severity : String
  notionUrl : String
  lastSyncedAt : String
  updatedAt : String
deriving DecidableEq

/-- Row of `discord_messages` — a DeliveryLink `issueId → messageId` scoped to
a channel. -/
structure DiscordMessage where
  id : String
  issueId : String
  discordChannelId : String
  messageId : String
deriving DecidableEq

/-- Row of `sync_logs` (the OperationLog). -/
structure SyncLog where
  id : String
  syncMappingId : Option String
  operation : String
  status : String
  message : String
  details : String
  errorDetails : Option String
  issuesProcessed : Nat
  createdAt : String
deriving DecidableEq

/-- Local database state. -/
structure DB where
  notionConnections : List NotionConnection
  discordChannels : List DiscordChannel
  syncMappings : List SyncMapping
  issues : List Issue
  discordMessages : List DiscordMessage
  syncLogs : List SyncLog
deriving DecidableEq

/-- One recorded outward call to the Notion or Discord API. -/
inductive ExtCall where
  | post (channelId : String) (issueId : String)
  | updateMsg (channelId : String) (messageId : String) (issueId : String)
  | deleteMsg (channelId : String) (messageId : String)
  | updateStatus (pageId : String) (status : String)
  | fetchOpen (connectionId : String)
deriving DecidableEq

/-- Database primitives that may fail (a rejected drizzle promise). -/
inductive DbOp where
  | selectMappings
  | selectIssuesByConnection (connectionId : String)
  | selectIssueById (id : String)
  | selectConnectionById (id : String)
  | insertIssue (id : String)
  | updateIssueRow (id : String)
  | selectMessages (issueId : String)
  | insertMessage (issueId : String)
  | deleteMessageRow (rowId : String)
  | deleteIssueRow (id : String)
  | insertLog
deriving DecidableEq

/-- Mutable world: database, fresh-uuid counter, `console.error` side channel
and the trace of outward API calls. -/
structure St where
  db : DB
  uuidCounter : Nat
  consoleErrors : List String
  calls : List ExtCall
deriving DecidableEq

/-- Behaviour of everything outside the program under test: the Notion API,
the Discord API (as observed through the service methods that already catch
their own exceptions) and the success/failure of database promises. -/
structure Env where
  now : String
  notionTest : String → Bool
  discordTest : String → Bool
  fetchOpen : String → Except String (List NotionIssue)
  sendEmbed : String → NotionIssue → Option String
  updateEmbed : String → String → NotionIssue → Bool
  deleteMsg : String → String → Bool
  updateStatus : String → String → Except String Unit
  dbFail : DbOp → Option String
  cleanupFail : String → Option String

/-- `JSON.stringify` on a list of URL strings, used for the
`attached_files` column. -/
def jsonStringify (xs : List String) : String :=
  "[" ++ String.intercalate "," (xs.map (fun x => "\"" ++ x ++ "\"")) ++ "]"

/-- `uuidv4()` / `crypto.randomUUID()`: fresh identifiers drawn from a
counter. -/
def freshUuid (s : St) : String × St :=
  ("uuid-" ++ toString s.uuidCounter, { s with uuidCounter := s.uuidCounter + 1 })

/-- Append a `console.error` line. -/
def addConsole (s : St) (msg : String) : St :=
  { s with consoleErrors := s.consoleErrors ++ [msg] }

/-- Record an outward API call in the trace. -/
def addCall (s : St) (c : ExtCall) : St :=
  { s with calls := s.calls ++ [c] }

namespace NotionService

/-- `NotionService.testConnection` — a read-only probe, modelled by the
oracle. -/
def testConnection (env : Env) (conn : NotionConnection) : Bool :=
  env.notionTest conn.id

/-- `NotionService.fetchOpenIssues` — queries the Notion database for open
records; throws on any failure (schema probe, query, auth). -/
def fetchOpenIssues (env : Env) (conn : NotionConnection) (s : St) :
    Except String (List NotionIssue) × St :=
  (env.fetchOpen conn.id, addCall s (ExtCall.fetchOpen conn.id))

/-- `NotionService.updateIssueStatus` — writes the status property of a
Notion page; throws on failure. -/
def updateIssueStatus (env : Env) (pageId status : String) (s : St) :
    Except String Unit × St :=
  (env.updateStatus pageId status, addCall s (ExtCall.updateStatus pageId status))

end NotionService

namespace DiscordServerService

/-- `DiscordServerService.testConnection` — probes the channel; returns a
bare boolean, never throws. -/
def testConnection (env : Env) (chan : DiscordChannel) : Bool :=
  env.discordTest chan.channelId

/-- `DiscordServerService.postIssue` via `sendIssueEmbed`: posts an embed and
returns `result?.messageId || null`.  `sendIssueEmbed` catches every failure
and yields `null`; an empty `messageId` is also collapsed to `null` by the
`|| null`.  Never throws. -/
def postIssue (env : Env) (chan : DiscordChannel) (issue : NotionIssue) (s : St) :
    Option String × St :=
  let s := addCall s (ExtCall.post chan.channelId issue.id)
  match env.sendEmbed chan.channelId issue with
  | none => (none, addConsole s "Failed to send Discord embed")
  | some m => (if m = "" then none else some m, s)

/-- `DiscordServerService.updateIssue` via `updateIssueEmbed`: edits the
message; returns `false` both when the message no longer exists (Discord
error 10008, the NotFound case) and on any other caught failure.  Never
throws. -/
def updateIssue (env : Env) (chan : DiscordChannel) (messageId : String)
    (issue : NotionIssue) (s : St) : Bool × St :=
  let s := addCall s (ExtCall.updateMsg chan.channelId messageId issue.id)
  let ok := env.updateEmbed chan.channelId messageId issue
  (ok, if ok then s else addConsole s "Failed to update Discord embed")

/-- `DiscordServerService.deleteIssue` via `deleteMessage`: best effort,
returns a boolean, never throws. -/
def deleteIssue (env : Env) (chan : DiscordChannel) (messageId : String) (s : St) :
    Bool × St :=
  let s := addCall s (ExtCall.deleteMsg chan.channelId messageId)
  let ok := env.deleteMsg chan.channelId messageId
  (ok, if ok then s else addConsole s "Failed to delete Discord message")

/-- `DiscordServerService.cleanup` — destroys the client; an awaited
`destroy()` may reject. -/
def cleanup (env : Env) (chan : DiscordChannel) (s : St) : Except String Unit × St :=
  match env.cleanupFail chan.channelId with
  | some e => (Except.error e, s)
  | none => (Except.ok (), s)

end DiscordServerService

/-- `SyncResult` of `src/lib/services/sync.ts`. -/
structure SyncResult where
  success : Bool
  issuesProcessed : Nat
  errors : List String
  warnings : List String
deriving DecidableEq

namespace SyncService

/-- The `NewIssue` row built at the top of `SyncService.createIssue`. -/
def newIssueRow (env : Env) (issue : NotionIssue) (conn : NotionConnection) : Issue :=
  { id := issue.id
    issueId := none
    notionPageId := none
    notionConnectionId := conn.id
    status := issue.status
    project := issue.project
    bugName := issue.bugName
    bugDescription := issue.bugDescription
    attachedFiles := jsonStringify issue.attachedFiles
    severity := issue.severity
    notionUrl := issue.url
    lastSyncedAt := env.now
    updatedAt := env.now }

/-- `SyncService.logSyncOperation`: inserts one `sync_logs` row; its own
`try/catch` turns an insert failure into a `console.error`, so the caller is
never aborted. -/
def logSyncOperation (env : Env) (syncMappingId : Option String)
    (operation status message errorDetails : String) (issuesProcessed : Nat)
    (s : St) : Except String Unit × St :=
  match env.dbFail DbOp.insertLog with
  | some e => (Except.ok (), addConsole s ("Failed to log sync operation: " ++ e))
  | none =>
    let (uid, s) := freshUuid s
    let row : SyncLog :=
      { id := uid, syncMappingId := syncMappingId, operation := operation
        status := status, message := message, details := ""
        errorDetails := if errorDetails = "" then none else some errorDetails
        issuesProcessed := issuesProcessed, createdAt := env.now }
    (Except.ok (), { s with db := { s.db with syncLogs := s.db.syncLogs ++ [row] } })

/-- `SyncService.createIssue`: insert the cache row, post to Discord, and
persist the DeliveryLink only when a messageId came back. -/
def createIssue (env : Env) (issue : NotionIssue) (conn : NotionConnection)
    (chan : DiscordChannel) (discordChannelId : String) (s : St) :
    Except String Unit × St :=
  match env.dbFail (DbOp.insertIssue issue.id) with
  | some e => (Except.error e, s)
  | none =>
    let s := { s with db := { s.db with issues := s.db.issues ++ [newIssueRow env issue conn] } }
    let (messageId, s) := DiscordServerService.postIssue env chan issue s
    match messageId with
    | some m =>
      match env.dbFail (DbOp.insertMessage issue.id) with
      | some e => (Except.error e, s)
      | none =>
        let (uid, s) := freshUuid s
        let row : DiscordMessage :=
          { id := uid, issueId := issue.id, discordChannelId := discordChannelId
            messageId := m }
        (Except.ok (),
          { s with db := { s.db with discordMessages := s.db.discordMessages ++ [row] } })
    | none =>
      (Except.ok (),
        addConsole s ("Failed to post issue " ++ issue.id ++ " to Discord - no messageId returned"))

/-- The field overwrite performed by the `db.update(issues)` call of
`SyncService.updateIssue`. -/
def applyIssueUpdate (env : Env) (issue : NotionIssue) (row : Issue) : Issue :=
  { row with
    status := issue.status
    project := issue.project
    bugName := issue.bugName
    bugDescription := issue.bugDescription
    attachedFiles := jsonStringify issue.attachedFiles
    severity := issue.severity
    notionUrl := issue.url
    lastSyncedAt := env.now
    updatedAt := env.now }

/-- `SyncService.updateIssue`: overwrite the cache row, then either edit the
linked Discord message (return value of the edit is discarded) or — when no
link exists — post a new message and persist a link if a messageId came
back. -/
def updateIssue (env : Env) (issue : NotionIssue) (conn : NotionConnection)
    (chan : DiscordChannel) (discordChannelId : String) (s : St) :
    Except String Unit × St :=
  match env.dbFail (DbOp.updateIssueRow issue.id) with
  | some e => (Except.error e, s)
  | none =>
    let s := { s with db := { s.db with
      issues := s.db.issues.map (fun r => if r.id = issue.id then applyIssueUpdate env issue r else r) } }
    match env.dbFail (DbOp.selectMessages issue.id) with
    | some e => (Except.error e, s)
    | none =>
      match s.db.discordMessages.find?
          (fun r => r.issueId == issue.id && r.discordChannelId == discordChannelId) with
      | some link =>
        let (_ok, s) := DiscordServerService.updateIssue env chan link.messageId issue s
        (Except.ok (), s)
      | none =>
        let (messageId, s) := DiscordServerService.postIssue env chan issue s
        match messageId with
        | some m =>
          match env.dbFail (DbOp.insertMessage issue.id) with
          | some e => (Except.error e, s)
          | none =>
            let (uid, s) := freshUuid s
            let row : DiscordMessage :=
              { id := uid, issueId := issue.id, discordChannelId := discordChannelId
                messageId := m }
            (Except.ok (),
              { s with db := { s.db with discordMessages := s.db.discordMessages ++ [row] } })
        | none =>
          (Except.ok (),
            addConsole s ("Failed to post Discord message for issue " ++ issue.id))

/-- The per-message loop of `SyncService.removeIssue`: delete each Discord
message (best effort) and its `discord_messages` row. -/
def removeMsgsLoop (env : Env) (chan : DiscordChannel) (rows : List DiscordMessage)
    (s : St) : Except String Unit × St :=
  match rows with
  | [] => (Except.ok (), s)
  | r :: rest =>
    let (_ok, s) := DiscordServerService.deleteIssue env chan r.messageId s
    match env.dbFail (DbOp.deleteMessageRow r.id) with
    | some e => (Except.error e, s)
    | none =>
      let s := { s with db := { s.db with
        discordMessages := s.db.discordMessages.filter (fun m => decide (m.id ≠ r.id)) } }
      removeMsgsLoop env chan rest s

/-- `SyncService.removeIssue`: delete every Discord message linked to the
issue (across channels), then the cache row. -/
def removeIssue (env : Env) (chan : DiscordChannel) (row : Issue) (s : St) :
    Except String Unit × St :=
  match env.dbFail (DbOp.selectMessages row.id) with
  | some e => (Except.error e, s)
  | none =>
    let msgs := s.db.discordMessages.filter (fun m => m.issueId == row.id)
    match removeMsgsLoop env chan msgs s with
    | (Except.error e, s) => (Except.error e, s)
    | (Except.ok _, s) =>
      match env.dbFail (DbOp.deleteIssueRow row.id) with
      | some e => (Except.error e, s)
      | none =>
        (Except.ok (), { s with db := { s.db with
          issues := s.db.issues.filter (fun r => decide (r.id ≠ row.id)) } })

/-- The create/update loop of `SyncService.syncMapping`: each record is
processed inside its own `try/catch`; a success bumps `issuesProcessed`, a
throw appends to `errors` and the loop continues. -/
def processLoop (env : Env) (conn : NotionConnection) (chan : DiscordChannel)
    (discordChannelId : String) (existingIds : List String)
    (records : List NotionIssue) (acc : SyncResult) (s : St) : SyncResult × St :=
  match records with
  | [] => (acc, s)
  | i :: rest =>
    let (r, s) :=
      if i.id ∈ existingIds then
        updateIssue env i conn chan discordChannelId s
      else
        createIssue env i conn chan discordChannelId s
    match r with
    | Except.ok _ =>
      processLoop env conn chan discordChannelId existingIds rest
        { acc with issuesProcessed := acc.issuesProcessed + 1 } s
    | Except.error e =>
      processLoop env conn chan discordChannelId existingIds rest
        { acc with errors := acc.errors ++ ["Failed to process issue " ++ i.id ++ ": " ++ e] }
        (addConsole s ("Error processing issue " ++ i.id))

/-- The removal loop of `SyncService.syncMapping`, with the same per-record
isolation. -/
def removeLoop (env : Env) (chan : DiscordChannel) (rows : List Issue)
    (acc : SyncResult) (s : St) : SyncResult × St :=
  match rows with
  | [] => (acc, s)
  | row :: rest =>
    match removeIssue env chan row s with
    | (Except.ok _, s) =>
      removeLoop env chan rest { acc with issuesProcessed := acc.issuesProcessed + 1 } s
    | (Except.error e, s) =>
      removeLoop env chan rest
        { acc with errors := acc.errors ++ ["Failed to remove issue " ++ row.id ++ ": " ++ e] }
        (addConsole s ("Error removing issue " ++ row.id))

/-- The project filter of `SyncService.syncMapping`:
`mapping.projectFilter && mapping.projectFilter !== 'all'` — a null or empty
filter and the literal `"all"` all bypass filtering. -/
def filteredIssues (projectFilter : Option String) (l : List NotionIssue) :
    List NotionIssue :=
  match projectFilter with
  | some pf => if pf ≠ "" ∧ pf ≠ "all" then l.filter (fun i => i.project == pf) else l
  | none => l

/-- The `catch` block of `SyncService.syncMapping`: mark the run failed,
append the error, and write an error log row for this mapping. -/
def syncMappingFail (env : Env) (mapping : SyncMapping) (acc : SyncResult)
    (e : String) (s : St) : SyncResult × St :=
  let acc := { acc with success := false
                        errors := acc.errors ++ ["Mapping sync failed: " ++ e] }
  let s := addConsole s ("Mapping sync failed for " ++ mapping.id)
  let (_, s) := logSyncOperation env (some mapping.id) "sync" "error"
    ("Sync failed: " ++ e) e 0 s
  (acc, s)

/-- `SyncService.syncMapping`: test both connections, fetch, filter, diff
against the cached rows of this Notion connection, apply creates/updates and
removals with per-record isolation, clean up, and write one summary log
row.  Any failure outside the per-record loops lands in the `catch`
(`syncMappingFail`). -/
def syncMapping (env : Env) (mapping : SyncMapping) (conn : NotionConnection)
    (chan : DiscordChannel) (s : St) : SyncResult × St :=
  let acc : SyncResult := { success := true, issuesProcessed := 0, errors := [], warnings := [] }
  let notionOk := NotionService.testConnection env conn
  let discordOk := DiscordServerService.testConnection env chan
  if ¬ notionOk then
    syncMappingFail env mapping acc "Error: Notion connection failed" s
  else if ¬ discordOk then
    syncMappingFail env mapping acc "Error: Discord connection failed" s
  else
    match NotionService.fetchOpenIssues env conn s with
    | (Except.error e, s) => syncMappingFail env mapping acc e s
    | (Except.ok notionIssues, s) =>
      let filtered := filteredIssues mapping.projectFilter notionIssues
      match env.dbFail (DbOp.selectIssuesByConnection conn.id) with
      | some e => syncMappingFail env mapping acc e s
      | none =>
        let existing := s.db.issues.filter (fun r => r.notionConnectionId == conn.id)
        let existingIds := existing.map (fun r => r.id)
        let currentIds := filtered.map (fun i => i.id)
        let (acc, s) := processLoop env conn chan mapping.discordChannelId existingIds filtered acc s
        let toRemove := existing.filter (fun r => decide (r.id ∉ currentIds))
        let (acc, s) := removeLoop env chan toRemove acc s
        match DiscordServerService.cleanup env chan s with
        | (Except.error e, s) => syncMappingFail env mapping acc e s
        | (Except.ok _, s) =>
          let (_, s) := logSyncOperation env (some mapping.id) "sync"
            (if acc.success then "success" else "error")
            ("Synced " ++ toString filtered.length ++ " issues")
            (String.intercalate "; " acc.errors) acc.issuesProcessed s
          (acc, s)

/-- The active-mapping selection of `SyncService.runFullSync`: inner joins on
both connection tables, keeping only rows where mapping, connection and
channel are all active. -/
def selectActiveMappings (db : DB) : List (SyncMapping × NotionConnection × DiscordChannel) :=
  db.syncMappings.filterMap (fun m =>
    match db.notionConnections.find? (fun c => c.id == m.notionConnectionId),
          db.discordChannels.find? (fun d => d.id == m.discordChannelId) with
    | some c, some d =>
      if m.isActive && c.isActive && d.isActive then some (m, c, d) else none
    | _, _ => none)

/-- The aggregation loop of `SyncService.runFullSync`.  `syncMapping` never
throws (its own `catch` swallows everything), so the per-mapping `try/catch`
of the source is unreachable and only the aggregation remains. -/
def fullLoop (env : Env) (ms : List (SyncMapping × NotionConnection × DiscordChannel))
    (acc : SyncResult) (s : St) : SyncResult × St :=
  match ms with
  | [] => (acc, s)
  | (m, c, d) :: rest =>
    let (r, s) := syncMapping env m c d s
    fullLoop env rest
      { success := acc.success && r.success
        issuesProcessed := acc.issuesProcessed + r.issuesProcessed
        errors := acc.errors ++ r.errors
        warnings := acc.warnings ++ r.warnings } s

/-- `SyncService.runFullSync`: select the active mappings, sync each one
sequentially, aggregate, and write one `full_sync` summary log row.  A
failure of the initial select lands in the outer `catch`. -/
def runFullSync (env : Env) (s : St) : SyncResult × St :=
  let acc : SyncResult := { success := true, issuesProcessed := 0, errors := [], warnings := [] }
  match env.dbFail DbOp.selectMappings with
  | some e =>
    ({ acc with success := false, errors := ["Full sync failed: " ++ e] },
      addConsole s ("Full sync failed: " ++ e))
  | none =>
    let (acc, s) := fullLoop env (selectActiveMappings s.db) acc s
    let (_, s) := logSyncOperation env none "full_sync"
      (if acc.success then "success" else "error")
      ("Processed " ++ toString acc.issuesProcessed ++ " issues")
      (String.intercalate "; " acc.errors) acc.issuesProcessed s
    (acc, s)

end SyncService

/-- Parsed body of an inbound Discord interaction callback
(`src/app/api/sync/webhook/route.ts`): `type` 1 = PING, 3 =
MESSAGE_COMPONENT; `customId` is the component's `custom_id`; `username` the
invoking member's name when present. -/
structure Interaction where
  type : Nat
  customId : String
  username : Option String
deriving DecidableEq

/-- Inbound request as seen by the webhook handler: presence of the two
signature headers, whether `DISCORD_PUBLIC_KEY` is configured, the verdict of
`verifyKey`, and the body — `none` when `JSON.parse` would throw. -/
structure WebhookRequest where
  hasSignatureHeaders : Bool
  publicKeyConfigured : Bool
  signatureValid : Bool
  body : Option Interaction
deriving DecidableEq

/-- Response returned by the webhook handler.  `updateMessage` is the Discord
`UPDATE_MESSAGE` (type 7) interaction response, which edits the original
channel message in place with the given content and clears its embeds and
components; `channelMessage` is `CHANNEL_MESSAGE_WITH_SOURCE` (type 4), with
`ephemeral` recording the `flags: 64` bit. -/
inductive WebhookResponse where
  | errorStatus (status : Nat) (error : String)
  | pong
  | channelMessage (content : String) (ephemeral : Bool)
  | updateMessage (content : String)
deriving DecidableEq

/-- True for a `CHANNEL_MESSAGE_WITH_SOURCE` response carrying `flags: 64`. -/
def WebhookResponse.isEphemeralAck : WebhookResponse → Bool
  | WebhookResponse.channelMessage _ true => true
  | _ => false

/-- True for an `UPDATE_MESSAGE` response, i.e. one that edits the channel
message the component lives on. -/
def WebhookResponse.editsChannelMessage : WebhookResponse → Bool
  | WebhookResponse.updateMessage _ => true
  | _ => false

/-- Character-list helper: strip a leading pattern, `none` when the pattern
is not a leading substring. -/
def stripLeadingChars : List Char → List Char → Option (List Char)
  | [], rest => some rest
  | _ :: _, [] => none
  | p :: ps, c :: cs => if p = c then stripLeadingChars ps cs else none

/-- The `customId.startsWith('fix_issue_')` test combined with
`customId.replace('fix_issue_', '')` of the webhook handler. -/
def stripFixIssue (customId : String) : Option String :=
  match stripLeadingChars "fix_issue_".data customId.data with
  | some rest => some (String.mk rest)
  | none => none

namespace WebhookRoute

/-- `notionPageId || currentIssue.id`: fall back to the row id when the page
id is NULL (or empty, which is falsy). -/
def pageIdOf (row : Issue) : String :=
  match row.notionPageId with
  | some p => if p = "" then row.id else p
  | none => row.id

/-- The `sync_logs` row the webhook inserts. -/
def interactionLog (env : Env) (uid status details : String) : SyncLog :=
  { id := uid, syncMappingId := none, operation := "discord_mark_fixed"
    status := status, message := "", details := details
    errorDetails := none, issuesProcessed := 0, createdAt := env.now }

/-- The inner `catch` of the `fix_issue_` branch: insert an error log row
(itself able to throw, which would escalate to the outer `catch` and a 500)
and answer with an ephemeral failure message. -/
def markFixedFail (env : Env) (e : String) (s : St) : WebhookResponse × St :=
  let s := addConsole s ("Error marking issue as fixed: " ++ e)
  match env.dbFail DbOp.insertLog with
  | some _ => (WebhookResponse.errorStatus 500 "Internal server error", s)
  | none =>
    let (uid, s) := freshUuid s
    let s := { s with db := { s.db with syncLogs := s.db.syncLogs ++
      [interactionLog env uid "error" ("Error marking issue as fixed: " ++ e)] } }
    (WebhookResponse.channelMessage "❌ Failed to mark issue as fixed. Please try again." true, s)

/-- The `fix_issue_` branch of the webhook handler: look up the issue and its
connection, update the Notion status to `Fixed`, mirror the status in the
cache row, insert a success log row, and answer with an `UPDATE_MESSAGE`
edit of the original message. -/
def markFixed (env : Env) (interaction : Interaction) (issueId : String) (s : St) :
    WebhookResponse × St :=
  match env.dbFail (DbOp.selectIssueById issueId) with
  | some e => markFixedFail env e s
  | none =>
    match s.db.issues.find? (fun r => r.id == issueId) with
    | none => (WebhookResponse.channelMessage "❌ Issue not found in database." true, s)
    | some currentIssue =>
      match env.dbFail (DbOp.selectConnectionById currentIssue.notionConnectionId) with
      | some e => markFixedFail env e s
      | none =>
        match s.db.notionConnections.find? (fun c => c.id == currentIssue.notionConnectionId) with
        | none => markFixedFail env "Error: Notion connection not found" s
        | some _conn =>
          match NotionService.updateIssueStatus env (pageIdOf currentIssue) "Fixed" s with
          | (Except.error e, s) => markFixedFail env e s
          | (Except.ok _, s) =>
            match env.dbFail (DbOp.updateIssueRow issueId) with
            | some e => markFixedFail env e s
            | none =>
              let updated := s.db.issues.map (fun r =>
                if r.id = issueId then { r with status := "Fixed", updatedAt := env.now } else r)
              let s := { s with db := { s.db with issues := updated } }
              match env.dbFail DbOp.insertLog with
              | some e => markFixedFail env e s
              | none =>
                let (uid, s) := freshUuid s
                let s := { s with db := { s.db with syncLogs := s.db.syncLogs ++
                  [interactionLog env uid "success"
                    ("Issue marked as fixed via Discord button by user " ++
                      interaction.username.getD "unknown")] } }
                (WebhookResponse.updateMessage
                  ("✅ Issue \"" ++ currentIssue.bugName ++ "\" has been marked as fixed!"), s)

/-- `POST` of `src/app/api/sync/webhook/route.ts`: signature checks, PING
handling, and the `fix_issue_` component branch; everything else is a 400,
and a body that fails to parse hits the outer `catch` (500). -/
def POST (env : Env) (req : WebhookRequest) (s : St) : WebhookResponse × St :=
  if ¬ req.hasSignatureHeaders then
    (WebhookResponse.errorStatus 401 "Missing signature headers", s)
  else if ¬ req.publicKeyConfigured then
    (WebhookResponse.errorStatus 500 "Discord public key not configured", s)
  else if ¬ req.signatureValid then
    (WebhookResponse.errorStatus 401 "Invalid signature", s)
  else
    match req.body with
    | none => (WebhookResponse.errorStatus 500 "Internal server error", s)
    | some interaction =>
      if interaction.type = 1 then
        (WebhookResponse.pong, s)
      else if interaction.type = 3 then
        match stripFixIssue interaction.customId with
        | some issueId => markFixed env interaction issueId s
        | none => (WebhookResponse.errorStatus 400 "Unknown interaction type", s)
      else
        (WebhookResponse.errorStatus 400 "Unknown interaction type", s)

end WebhookRoute


/-- Whether a post of this record through this channel would yield a usable
messageId. -/
def postOk (env : Env) (channelId : String) (i : NotionIssue) : Bool :=
  match env.sendEmbed channelId i with
  | some m => decide (m ≠ "")
  | none => false


/-- Concrete open record used by the witnesses and counterexamples. -/
def issueA1 : NotionIssue :=
  { id := "A1", status := "open", project := "core", bugName := "bugA"
    bugDescription := "d", attachedFiles := [], severity := "high", url := "u" }

/-- Second concrete open record. -/
def issueB2 : NotionIssue :=
  { id := "B2", status := "open", project := "core", bugName := "bugB"
    bugDescription := "d2", attachedFiles := [], severity := "low", url := "u2" }

/-- Concrete Notion connection row. -/
def connN1 : NotionConnection := { id := "n1", name := "N", isActive := true }

/-- Concrete Discord channel row. -/
def chanD1 : DiscordChannel :=
  { id := "dc1", name := "general", channelId := "C100", isActive := true }

/-- Concrete mapping with no project filter. -/
def mapM1 : SyncMapping :=
  { id := "map1", notionConnectionId := "n1", discordChannelId := "dc1"
    projectFilter := none, isActive := true }

/-- Concrete mapping whose projectFilter is the empty string. -/
def mapEmptyFilter : SyncMapping := { mapM1 with projectFilter := some "" }

/-- Concrete mapping filtering on project `core`. -/
def mapCoreFilter : SyncMapping := { mapM1 with projectFilter := some "core" }

/-- Database holding the single mapping and both connection rows and nothing
else. -/
def emptyDB : DB :=
  { notionConnections := [connN1], discordChannels := [chanD1]
    syncMappings := [mapM1], issues := [], discordMessages := [], syncLogs := [] }

/-- Initial world state over `emptyDB`. -/
def st0 : St := { db := emptyDB, uuidCounter := 0, consoleErrors := [], calls := [] }

/-- Benign oracle: both connections test fine, fetches return nothing, every
post yields messageId `m-new`, edits and deletes succeed, and no database
call fails. -/
def envBase : Env :=
  { now := "T0"
    notionTest := fun _ => true
    discordTest := fun _ => true
    fetchOpen := fun _ => Except.ok []
    sendEmbed := fun _ _ => some "m-new"
    updateEmbed := fun _ _ _ => true
    deleteMsg := fun _ _ => true
    updateStatus := fun _ _ => Except.ok ()
    dbFail := fun _ => none
    cleanupFail := fun _ => none }

/-- Cached row for `issueA1` as the engine itself would write it. -/
def rowA1 : Issue := SyncService.newIssueRow envBase issueA1 connN1

/-- Pre-existing DeliveryLink for `issueA1` pointing at message `msg1`. -/
def linkA1 : DiscordMessage :=
  { id := "L1", issueId := "A1", discordChannelId := "dc1", messageId := "msg1" }

/-- State with `issueA1` cached and linked to `msg1`. -/
def stC1 : St := { st0 with db := { emptyDB with issues := [rowA1], discordMessages := [linkA1] } }

/-- Oracle for the out-of-band-deletion scenario: the fetch returns `issueA1`
(still open) and the Discord edit reports failure (message gone, error
10008), exactly the situation the adapter signals by returning `false`. -/
def envC1 : Env := { envBase with
  fetchOpen := fun _ => Except.ok [issueA1]
  updateEmbed := fun _ _ _ => false }

/-- Oracle with one per-record database failure: inserting the cache row for
`A1` rejects. -/
def envC2 : Env := { envBase with
  fetchOpen := fun _ => Except.ok [issueA1]
  dbFail := fun op => if op = DbOp.insertIssue "A1" then some "db down" else none }

/-- Oracle for the partial-post-failure run: two fresh records, the embed
send fails for `A1` only. -/
def envC3 : Env := { envBase with
  fetchOpen := fun _ => Except.ok [issueA1, issueB2]
  sendEmbed := fun _ i => if i.id = "A1" then none else some "m-b2" }

/-- Oracle where the only record's post fails. -/
def envC4 : Env := { envBase with
  fetchOpen := fun _ => Except.ok [issueA1]
  sendEmbed := fun _ _ => none }

/-- Oracle fetching one record with a non-empty project. -/
def envC6 : Env := { envBase with fetchOpen := fun _ => Except.ok [issueA1] }

/-- Oracle whose fetch always fails. -/
def envC7 : Env := { envBase with fetchOpen := fun _ => Except.error "boom" }

/-- Oracle whose log insert always fails. -/
def envC8w : Env := { envBase with
  dbFail := fun op => if op = DbOp.insertLog then some "disk full" else none }

/-- Oracle whose initial mapping query fails. -/
def envSelFail : Env := { envBase with
  dbFail := fun op => if op = DbOp.selectMappings then some "boom" else none }

/-- The DeliveryLink row the engine writes for `issueA1` from `st0` under
`envBase`. -/
def linkW : DiscordMessage :=
  { id := "uuid-0", issueId := "A1", discordChannelId := "dc1", messageId := "m-new" }

/-- State with `issueA1` cached (webhook scenarios). -/
def stC5 : St := { st0 with db := { emptyDB with issues := [rowA1] } }

/-- Valid signed resolve interaction for issue `A1`. -/
def reqC5 : WebhookRequest :=
  { hasSignatureHeaders := true, publicKeyConfigured := true, signatureValid := true
    body := some { type := 3, customId := "fix_issue_A1", username := some "alice" } }


lemma createIssue_syncLogs (env : Env) (i : NotionIssue) (conn : NotionConnection)
    (chan : DiscordChannel) (chId : String) (s : St) :
    (SyncService.createIssue env i conn chan chId s).2.db.syncLogs = s.db.syncLogs := by
  unfold SyncService.createIssue DiscordServerService.postIssue
  rcases h1 : env.dbFail (DbOp.insertIssue i.id) with _ | e
  · rcases h2 : env.sendEmbed chan.channelId i with _ | m
    · simp [h2, addCall, addConsole]
    · by_cases hm : m = ""
      · simp [h2, hm, addCall, addConsole]
      · rcases h3 : env.dbFail (DbOp.insertMessage i.id) with _ | e2
        · simp [h2, h3, hm, addCall, addConsole, freshUuid]
        · simp [h2, h3, hm, addCall, addConsole]
  · simp

lemma createIssue_mem_links (env : Env) (i : NotionIssue) (conn : NotionConnection)
    (chan : DiscordChannel) (chId : String) (s : St) (r : DiscordMessage)
    (hr : r ∈ (SyncService.createIssue env i conn chan chId s).2.db.discordMessages) :
    r ∈ s.db.discordMessages ∨
      (r.issueId = i.id ∧ r.discordChannelId = chId ∧
        env.sendEmbed chan.channelId i = some r.messageId ∧ r.messageId ≠ "") := by
  unfold SyncService.createIssue DiscordServerService.postIssue at hr
  rcases h1 : env.dbFail (DbOp.insertIssue i.id) with _ | e
  · rw [h1] at hr
    rcases h2 : env.sendEmbed chan.channelId i with _ | m
    · rw [h2] at hr
      simp [addCall, addConsole] at hr
      exact Or.inl hr
    · rw [h2] at hr
      by_cases hm : m = ""
      · simp [hm, addCall, addConsole] at hr
        exact Or.inl hr
      · rcases h3 : env.dbFail (DbOp.insertMessage i.id) with _ | e2
        · simp [hm, h3, addCall, addConsole, freshUuid] at hr
          rcases hr with hr | hr
          · exact Or.inl hr
          · subst hr
            exact Or.inr ⟨rfl, rfl, by simpa using h2, by simpa using hm⟩
        · simp [hm, h3, addCall, addConsole] at hr
          exact Or.inl hr
  · rw [h1] at hr
    exact Or.inl hr


lemma updateIssue_syncLogs (env : Env) (i : NotionIssue) (conn : NotionConnection)
    (chan : DiscordChannel) (chId : String) (s : St) :
    (SyncService.updateIssue env i conn chan chId s).2.db.syncLogs = s.db.syncLogs := by
  unfold SyncService.updateIssue DiscordServerService.postIssue DiscordServerService.updateIssue
  rcases h0 : env.dbFail (DbOp.updateIssueRow i.id) with _ | e
  · rcases h1 : env.dbFail (DbOp.selectMessages i.id) with _ | e
    · rcases h2 : s.db.discordMessages.find?
          (fun r => r.issueId == i.id && r.discordChannelId == chId) with _ | link
      · rcases h3 : env.sendEmbed chan.channelId i with _ | m
        · simp [h0, h1, h2, h3, addCall, addConsole]
        · by_cases hm : m = ""
          · simp [h0, h1, h2, h3, hm, addCall, addConsole]
          · rcases h4 : env.dbFail (DbOp.insertMessage i.id) with _ | e2
            · simp [h0, h1, h2, h3, h4, hm, addCall, addConsole, freshUuid]
            · simp [h0, h1, h2, h3, h4, hm, addCall, addConsole]
      · by_cases hok : env.updateEmbed chan.channelId link.messageId i
        · simp [h0, h1, h2, hok, addCall, addConsole]
        · simp [h0, h1, h2, hok, addCall, addConsole]
    · simp [h0, h1]
  · simp [h0]

lemma updateIssue_mem_links (env : Env) (i : NotionIssue) (conn : NotionConnection)
    (chan : DiscordChannel) (chId : String) (s : St) (r : DiscordMessage)
    (hr : r ∈ (SyncService.updateIssue env i conn chan chId s).2.db.discordMessages) :
    r ∈ s.db.discordMessages ∨
      (r.issueId = i.id ∧ r.discordChannelId = chId ∧
        env.sendEmbed chan.channelId i = some r.messageId ∧ r.messageId ≠ "") := by
  unfold SyncService.updateIssue DiscordServerService.postIssue
    DiscordServerService.updateIssue at hr
  rcases h0 : env.dbFail (DbOp.updateIssueRow i.id) with _ | e
  · simp only [h0] at hr
    rcases h1 : env.dbFail (DbOp.selectMessages i.id) with _ | e
    · simp only [h1] at hr
      rcases h2 : s.db.discordMessages.find?
          (fun r => r.issueId == i.id && r.discordChannelId == chId) with _ | link
      · rcases h3 : env.sendEmbed chan.channelId i with _ | m
        · simp [h2, h3, addCall, addConsole] at hr
          exact Or.inl hr
        · by_cases hm : m = ""
          · simp [h2, h3, hm, addCall, addConsole] at hr
            exact Or.inl hr
          · rcases h4 : env.dbFail (DbOp.insertMessage i.id) with _ | e2
            · simp [h2, h3, h4, hm, addCall, addConsole, freshUuid] at hr
              rcases hr with hr | hr
              · exact Or.inl hr
              · subst hr
                exact Or.inr ⟨rfl, rfl, by simp [h3], by simp [hm]⟩
            · simp [h2, h3, h4, hm, addCall, addConsole] at hr
              exact Or.inl hr
      · by_cases hok : env.updateEmbed chan.channelId link.messageId i
        · simp [h2, hok, addCall, addConsole] at hr
          exact Or.inl hr
        · simp [h2, hok, addCall, addConsole] at hr
          exact Or.inl hr
    · simp only [h1] at hr
      exact Or.inl hr
  · simp only [h0] at hr
    exact Or.inl hr

lemma removeMsgsLoop_syncLogs (env : Env) (chan : DiscordChannel) :
    ∀ (rows : List DiscordMessage) (s : St),
      (SyncService.removeMsgsLoop env chan rows s).2.db.syncLogs = s.db.syncLogs := by
  intro rows
  induction rows with
  | nil => intro s; simp [SyncService.removeMsgsLoop]
  | cons r rest ih =>
    intro s
    unfold SyncService.removeMsgsLoop DiscordServerService.deleteIssue
    rcases h1 : env.dbFail (DbOp.deleteMessageRow r.id) with _ | e
    · by_cases hok : env.deleteMsg chan.channelId r.messageId
      · simp [h1, hok, addCall, addConsole, ih]
      · simp [h1, hok, addCall, addConsole, ih]
    · by_cases hok : env.deleteMsg chan.channelId r.messageId
      · simp [h1, hok, addCall, addConsole]
      · simp [h1, hok, addCall, addConsole]

lemma removeMsgsLoop_mem (env : Env) (chan : DiscordChannel) :
    ∀ (rows : List DiscordMessage) (s : St) (r : DiscordMessage),
      r ∈ (SyncService.removeMsgsLoop env chan rows s).2.db.discordMessages →
      r ∈ s.db.discordMessages := by
  intro rows
  induction rows with
  | nil => intro s r hr; simpa [SyncService.removeMsgsLoop] using hr
  | cons q rest ih =>
    intro s r hr
    unfold SyncService.removeMsgsLoop DiscordServerService.deleteIssue at hr
    rcases h1 : env.dbFail (DbOp.deleteMessageRow q.id) with _ | e
    · by_cases hok : env.deleteMsg chan.channelId q.messageId
      · simp only [h1, hok, addCall, addConsole, if_true] at hr
        have := ih _ r hr
        simp at this
        exact this.1
      · simp only [h1, hok, addCall, addConsole, Bool.false_eq_true, if_false] at hr
        have := ih _ r hr
        simp at this
        exact this.1
    · by_cases hok : env.deleteMsg chan.channelId q.messageId
      · simpa [h1, hok, addCall, addConsole] using hr
      · simpa [h1, hok, addCall, addConsole] using hr

lemma removeIssue_syncLogs (env : Env) (chan : DiscordChannel) (row : Issue) (s : St) :
    (SyncService.removeIssue env chan row s).2.db.syncLogs = s.db.syncLogs := by
  unfold SyncService.removeIssue
  rcases h0 : env.dbFail (DbOp.selectMessages row.id) with _ | e
  · simp only [h0]
    have hl := removeMsgsLoop_syncLogs env chan
      (s.db.discordMessages.filter (fun m => m.issueId == row.id)) s
    rcases h1 : SyncService.removeMsgsLoop env chan
        (s.db.discordMessages.filter (fun m => m.issueId == row.id)) s with ⟨r1, s1⟩
    rw [h1] at hl
    simp only at hl
    cases r1 with
    | ok u =>
      rcases h2 : env.dbFail (DbOp.deleteIssueRow row.id) with _ | e
      · simp [h1, h2, hl]
      · simp [h1, h2, hl]
    | error e => simp [h1, hl]
  · simp [h0]

lemma removeIssue_mem (env : Env) (chan : DiscordChannel) (row : Issue) (s : St)
    (r : DiscordMessage)
    (hr : r ∈ (SyncService.removeIssue env chan row s).2.db.discordMessages) :
    r ∈ s.db.discordMessages := by
  unfold SyncService.removeIssue at hr
  rcases h0 : env.dbFail (DbOp.selectMessages row.id) with _ | e
  · simp only [h0] at hr
    have key := removeMsgsLoop_mem env chan
      (s.db.discordMessages.filter (fun m => m.issueId == row.id)) s
    rcases h1 : SyncService.removeMsgsLoop env chan
        (s.db.discordMessages.filter (fun m => m.issueId == row.id)) s with ⟨r1, s1⟩
    rw [h1] at hr key
    simp only at key
    cases r1 with
    | ok u =>
      rcases h2 : env.dbFail (DbOp.deleteIssueRow row.id) with _ | e
      · simp only [h2] at hr
        exact key r hr
      · simp only [h2] at hr
        exact key r hr
    | error e =>
      simp only at hr
      exact key r hr
  · simp only [h0] at hr
    exact hr

lemma logSyncOperation_fst (env : Env) (mid : Option String)
    (op st2 msg errD : String) (n : Nat) (s : St) :
    (SyncService.logSyncOperation env mid op st2 msg errD n s).1 = Except.ok () := by
  unfold SyncService.logSyncOperation
  rcases h : env.dbFail DbOp.insertLog with _ | e <;> simp [h, freshUuid]

lemma logSyncOperation_logs (env : Env) (mid : Option String)
    (op st2 msg errD : String) (n : Nat) (s : St)
    (h : env.dbFail DbOp.insertLog = none) :
    (SyncService.logSyncOperation env mid op st2 msg errD n s).2.db.syncLogs =
      s.db.syncLogs ++
        [{ id := "uuid-" ++ toString s.uuidCounter, syncMappingId := mid, operation := op
           status := st2, message := msg, details := ""
           errorDetails := if errD = "" then none else some errD
           issuesProcessed := n, createdAt := env.now }] := by
  unfold SyncService.logSyncOperation
  simp [h, freshUuid]

lemma logSyncOperation_messages (env : Env) (mid : Option String)
    (op st2 msg errD : String) (n : Nat) (s : St) :
    (SyncService.logSyncOperation env mid op st2 msg errD n s).2.db.discordMessages =
      s.db.discordMessages := by
  unfold SyncService.logSyncOperation
  rcases h : env.dbFail DbOp.insertLog with _ | e <;> simp [h, freshUuid, addConsole]

lemma logSyncOperation_fail (env : Env) (mid : Option String)
    (op st2 msg errD : String) (n : Nat) (s : St) (e : String)
    (h : env.dbFail DbOp.insertLog = some e) :
    (SyncService.logSyncOperation env mid op st2 msg errD n s).2.db = s.db ∧
    (SyncService.logSyncOperation env mid op st2 msg errD n s).2.consoleErrors =
      s.consoleErrors ++ ["Failed to log sync operation: " ++ e] := by
  unfold SyncService.logSyncOperation
  simp [h, addConsole]


lemma processLoop_acc (env : Env) (conn : NotionConnection) (chan : DiscordChannel)
    (chId : String) (exIds : List String) :
    ∀ (records : List NotionIssue) (acc : SyncResult) (s : St),
      (SyncService.processLoop env conn chan chId exIds records acc s).1.success = acc.success ∧
      (SyncService.processLoop env conn chan chId exIds records acc s).1.warnings = acc.warnings := by
  intro records
  induction records with
  | nil => intro acc s; simp [SyncService.processLoop]
  | cons i rest ih =>
    intro acc s
    unfold SyncService.processLoop
    rcases h : (if i.id ∈ exIds then SyncService.updateIssue env i conn chan chId s
        else SyncService.createIssue env i conn chan chId s) with ⟨r, s2⟩
    cases r with
    | ok u => simpa using ih _ _
    | error e => simpa using ih _ _

lemma processLoop_syncLogs (env : Env) (conn : NotionConnection) (chan : DiscordChannel)
    (chId : String) (exIds : List String) :
    ∀ (records : List NotionIssue) (acc : SyncResult) (s : St),
      (SyncService.processLoop env conn chan chId exIds records acc s).2.db.syncLogs =
        s.db.syncLogs := by
  intro records
  induction records with
  | nil => intro acc s; simp [SyncService.processLoop]
  | cons i rest ih =>
    intro acc s
    unfold SyncService.processLoop
    rcases h : (if i.id ∈ exIds then SyncService.updateIssue env i conn chan chId s
        else SyncService.createIssue env i conn chan chId s) with ⟨r, s2⟩
    have hstep : s2.db.syncLogs = s.db.syncLogs := by
      by_cases hmem : i.id ∈ exIds
      · have := updateIssue_syncLogs env i conn chan chId s
        rw [if_pos hmem] at h
        rw [h] at this
        exact this
      · have := createIssue_syncLogs env i conn chan chId s
        rw [if_neg hmem] at h
        rw [h] at this
        exact this
    cases r with
    | ok u => rw [ih]; exact hstep
    | error e => rw [ih]; simpa [addConsole] using hstep

lemma processLoop_mem_links (env : Env) (conn : NotionConnection) (chan : DiscordChannel)
    (chId : String) (exIds : List String) :
    ∀ (records : List NotionIssue) (acc : SyncResult) (s : St) (r : DiscordMessage),
      r ∈ (SyncService.processLoop env conn chan chId exIds records acc s).2.db.discordMessages →
      r ∈ s.db.discordMessages ∨
        ∃ i ∈ records, r.issueId = i.id ∧ r.discordChannelId = chId ∧
          env.sendEmbed chan.channelId i = some r.messageId ∧ r.messageId ≠ "" := by
  intro records
  induction records with
  | nil => intro acc s r hr; simp [SyncService.processLoop] at hr; exact Or.inl hr
  | cons i rest ih =>
    intro acc s r hr
    unfold SyncService.processLoop at hr
    rcases h : (if i.id ∈ exIds then SyncService.updateIssue env i conn chan chId s
        else SyncService.createIssue env i conn chan chId s) with ⟨rr, s2⟩
    rw [h] at hr
    have hstep : ∀ x : DiscordMessage, x ∈ s2.db.discordMessages →
        x ∈ s.db.discordMessages ∨
          (x.issueId = i.id ∧ x.discordChannelId = chId ∧
            env.sendEmbed chan.channelId i = some x.messageId ∧ x.messageId ≠ "") := by
      intro x hx
      by_cases hmem : i.id ∈ exIds
      · rw [if_pos hmem] at h
        exact updateIssue_mem_links env i conn chan chId s x (by rw [h]; exact hx)
      · rw [if_neg hmem] at h
        exact createIssue_mem_links env i conn chan chId s x (by rw [h]; exact hx)
    have push : r ∈ s2.db.discordMessages ∨
        ∃ j ∈ rest, r.issueId = j.id ∧ r.discordChannelId = chId ∧
          env.sendEmbed chan.channelId j = some r.messageId ∧ r.messageId ≠ "" := by
      cases rr with
      | ok u => exact ih _ _ r hr
      | error e =>
        have := ih _ _ r hr
        simpa [addConsole] using this
    rcases push with hin | ⟨j, hj, hjp⟩
    · rcases hstep r hin with hin2 | hchar
      · exact Or.inl hin2
      · exact Or.inr ⟨i, List.mem_cons_self i rest, hchar⟩
    · exact Or.inr ⟨j, List.mem_cons_of_mem i hj, hjp⟩

lemma removeLoop_acc (env : Env) (chan : DiscordChannel) :
    ∀ (rows : List Issue) (acc : SyncResult) (s : St),
      (SyncService.removeLoop env chan rows acc s).1.success = acc.success ∧
      (SyncService.removeLoop env chan rows acc s).1.warnings = acc.warnings := by
  intro rows
  induction rows with
  | nil => intro acc s; simp [SyncService.removeLoop]
  | cons row rest ih =>
    intro acc s
    unfold SyncService.removeLoop
    rcases h : SyncService.removeIssue env chan row s with ⟨r, s2⟩
    cases r with
    | ok u => simpa using ih _ _
    | error e => simpa using ih _ _

lemma removeLoop_syncLogs (env : Env) (chan : DiscordChannel) :
    ∀ (rows : List Issue) (acc : SyncResult) (s : St),
      (SyncService.removeLoop env chan rows acc s).2.db.syncLogs = s.db.syncLogs := by
  intro rows
  induction rows with
  | nil => intro acc s; simp [SyncService.removeLoop]
  | cons row rest ih =>
    intro acc s
    unfold SyncService.removeLoop
    rcases h : SyncService.removeIssue env chan row s with ⟨r, s2⟩
    have hstep : s2.db.syncLogs = s.db.syncLogs := by
      have := removeIssue_syncLogs env chan row s
      rw [h] at this
      exact this
    cases r with
    | ok u => rw [ih]; exact hstep
    | error e => rw [ih]; simpa [addConsole] using hstep

lemma removeLoop_mem (env : Env) (chan : DiscordChannel) :
    ∀ (rows : List Issue) (acc : SyncResult) (s : St) (r : DiscordMessage),
      r ∈ (SyncService.removeLoop env chan rows acc s).2.db.discordMessages →
      r ∈ s.db.discordMessages := by
  intro rows
  induction rows with
  | nil => intro acc s r hr; simpa [SyncService.removeLoop] using hr
  | cons row rest ih =>
    intro acc s r hr
    unfold SyncService.removeLoop at hr
    rcases h : SyncService.removeIssue env chan row s with ⟨rr, s2⟩
    rw [h] at hr
    have hstep : ∀ x : DiscordMessage, x ∈ s2.db.discordMessages → x ∈ s.db.discordMessages := by
      intro x hx
      exact removeIssue_mem env chan row s x (by rw [h]; exact hx)
    cases rr with
    | ok u => exact hstep r (ih _ _ r hr)
    | error e =>
      have := ih _ _ r hr
      simp [addConsole] at this
      exact hstep r this


lemma processLoop_acc_eq (env : Env) (conn : NotionConnection) (chan : DiscordChannel)
    (chId : String) (exIds : List String) (records : List NotionIssue)
    (acc : SyncResult) (s : St) (acc2 : SyncResult) (s2 : St)
    (h : SyncService.processLoop env conn chan chId exIds records acc s = (acc2, s2)) :
    acc2.success = acc.success ∧ acc2.warnings = acc.warnings := by
  have := processLoop_acc env conn chan chId exIds records acc s
  rw [h] at this
  exact this

lemma processLoop_syncLogs_eq (env : Env) (conn : NotionConnection) (chan : DiscordChannel)
    (chId : String) (exIds : List String) (records : List NotionIssue)
    (acc : SyncResult) (s : St) (acc2 : SyncResult) (s2 : St)
    (h : SyncService.processLoop env conn chan chId exIds records acc s = (acc2, s2)) :
    s2.db.syncLogs = s.db.syncLogs := by
  have := processLoop_syncLogs env conn chan chId exIds records acc s
  rw [h] at this
  exact this

lemma processLoop_mem_eq (env : Env) (conn : NotionConnection) (chan : DiscordChannel)
    (chId : String) (exIds : List String) (records : List NotionIssue)
    (acc : SyncResult) (s : St) (acc2 : SyncResult) (s2 : St)
    (h : SyncService.processLoop env conn chan chId exIds records acc s = (acc2, s2))
    (r : DiscordMessage) (hr : r ∈ s2.db.discordMessages) :
    r ∈ s.db.discordMessages ∨
      ∃ i ∈ records, r.issueId = i.id ∧ r.discordChannelId = chId ∧
        env.sendEmbed chan.channelId i = some r.messageId ∧ r.messageId ≠ "" := by
  have := processLoop_mem_links env conn chan chId exIds records acc s r
  rw [h] at this
  exact this hr

lemma removeLoop_acc_eq (env : Env) (chan : DiscordChannel) (rows : List Issue)
    (acc : SyncResult) (s : St) (acc2 : SyncResult) (s2 : St)
    (h : SyncService.removeLoop env chan rows acc s = (acc2, s2)) :
    acc2.success = acc.success ∧ acc2.warnings = acc.warnings := by
  have := removeLoop_acc env chan rows acc s
  rw [h] at this
  exact this

lemma removeLoop_syncLogs_eq (env : Env) (chan : DiscordChannel) (rows : List Issue)
    (acc : SyncResult) (s : St) (acc2 : SyncResult) (s2 : St)
    (h : SyncService.removeLoop env chan rows acc s = (acc2, s2)) :
    s2.db.syncLogs = s.db.syncLogs := by
  have := removeLoop_syncLogs env chan rows acc s
  rw [h] at this
  exact this

lemma removeLoop_mem_eq (env : Env) (chan : DiscordChannel) (rows : List Issue)
    (acc : SyncResult) (s : St) (acc2 : SyncResult) (s2 : St)
    (h : SyncService.removeLoop env chan rows acc s = (acc2, s2))
    (r : DiscordMessage) (hr : r ∈ s2.db.discordMessages) :
    r ∈ s.db.discordMessages := by
  have := removeLoop_mem env chan rows acc s r
  rw [h] at this
  exact this hr

lemma syncMappingFail_fst (env : Env) (m : SyncMapping) (acc : SyncResult)
    (e : String) (s : St) :
    (SyncService.syncMappingFail env m acc e s).1 =
      { acc with success := false
                 errors := acc.errors ++ ["Mapping sync failed: " ++ e] } := by
  unfold SyncService.syncMappingFail
  rcases h : SyncService.logSyncOperation env (some m.id) "sync" "error"
      ("Sync failed: " ++ e) e 0 (addConsole s ("Mapping sync failed for " ++ m.id)) with ⟨u, s3⟩
  simp

lemma syncMappingFail_messages (env : Env) (m : SyncMapping) (acc : SyncResult)
    (e : String) (s : St) :
    (SyncService.syncMappingFail env m acc e s).2.db.discordMessages =
      s.db.discordMessages := by
  unfold SyncService.syncMappingFail
  simp [logSyncOperation_messages, addConsole]

lemma syncMappingFail_logs (env : Env) (m : SyncMapping) (acc : SyncResult)
    (e : String) (s : St) (h : env.dbFail DbOp.insertLog = none) :
    (SyncService.syncMappingFail env m acc e s).2.db.syncLogs =
      s.db.syncLogs ++
        [{ id := "uuid-" ++ toString s.uuidCounter, syncMappingId := some m.id
           operation := "sync", status := "error", message := "Sync failed: " ++ e
           details := "", errorDetails := if e = "" then none else some e
           issuesProcessed := 0, createdAt := env.now }] := by
  unfold SyncService.syncMappingFail
  simp [logSyncOperation_logs, h, addConsole]

lemma syncMapping_success_of (env : Env) (mapping : SyncMapping)
    (conn : NotionConnection) (chan : DiscordChannel) (s : St) (L : List NotionIssue)
    (h1 : env.notionTest conn.id = true)
    (h2 : env.discordTest chan.channelId = true)
    (hf : env.fetchOpen conn.id = Except.ok L)
    (hsel : env.dbFail (DbOp.selectIssuesByConnection conn.id) = none)
    (hcl : env.cleanupFail chan.channelId = none) :
    (SyncService.syncMapping env mapping conn chan s).1.success = true := by
  unfold SyncService.syncMapping NotionService.fetchOpenIssues DiscordServerService.cleanup
  simp only [NotionService.testConnection, DiscordServerService.testConnection,
    h1, h2, hf, hsel, hcl, Bool.not_true, not_true_eq_false, if_false, ite_false]
  rw [(removeLoop_acc env chan _ _ _).1]
  rw [(processLoop_acc env conn chan _ _ _ _ _).1]


lemma syncMapping_mem_links (env : Env) (mapping : SyncMapping)
    (conn : NotionConnection) (chan : DiscordChannel) (s : St) (r : DiscordMessage)
    (hr : r ∈ (SyncService.syncMapping env mapping conn chan s).2.db.discordMessages) :
    r ∈ s.db.discordMessages ∨
      ∃ L, env.fetchOpen conn.id = Except.ok L ∧
        ∃ i ∈ SyncService.filteredIssues mapping.projectFilter L,
          r.issueId = i.id ∧ r.discordChannelId = mapping.discordChannelId ∧
          env.sendEmbed chan.channelId i = some r.messageId ∧ r.messageId ≠ "" := by
  unfold SyncService.syncMapping NotionService.fetchOpenIssues DiscordServerService.cleanup
    NotionService.testConnection DiscordServerService.testConnection at hr
  by_cases hn : env.notionTest conn.id
  · by_cases hd : env.discordTest chan.channelId
    · rcases hf : env.fetchOpen conn.id with e | L
      · simp [hn, hd, hf, syncMappingFail_messages, addCall] at hr
        exact Or.inl hr
      · rcases hsel : env.dbFail (DbOp.selectIssuesByConnection conn.id) with _ | e
        · rcases hcl : env.cleanupFail chan.channelId with _ | e
          · simp only [hn, hd, hf, hsel, hcl, Bool.not_true, not_true_eq_false,
              if_false, ite_false, ite_true, if_true] at hr
            simp [logSyncOperation_messages] at hr
            have h5 := removeLoop_mem env chan _ _ _ r hr
            have h6 := processLoop_mem_links env conn chan _ _ _ _ _ r h5
            rcases h6 with h6 | ⟨i, hi, hprop⟩
            · simp [addCall] at h6
              exact Or.inl h6
            · exact Or.inr ⟨L, rfl, i, hi, hprop⟩
          · simp only [hn, hd, hf, hsel, hcl, Bool.not_true, not_true_eq_false,
              if_false, ite_false, ite_true, if_true] at hr
            simp [syncMappingFail_messages] at hr
            have h5 := removeLoop_mem env chan _ _ _ r hr
            have h6 := processLoop_mem_links env conn chan _ _ _ _ _ r h5
            rcases h6 with h6 | ⟨i, hi, hprop⟩
            · simp [addCall] at h6
              exact Or.inl h6
            · exact Or.inr ⟨L, rfl, i, hi, hprop⟩
        · simp [hn, hd, hf, hsel, syncMappingFail_messages, addCall] at hr
          exact Or.inl hr
    · simp [hn, hd, syncMappingFail_messages] at hr
      exact Or.inl hr
  · simp [hn, syncMappingFail_messages] at hr
    exact Or.inl hr


lemma syncMapping_logs (env : Env) (mapping : SyncMapping)
    (conn : NotionConnection) (chan : DiscordChannel) (s : St)
    (h : env.dbFail DbOp.insertLog = none) :
    ∃ entry : SyncLog,
      (SyncService.syncMapping env mapping conn chan s).2.db.syncLogs =
        s.db.syncLogs ++ [entry] ∧
      entry.syncMappingId = some mapping.id ∧ entry.operation = "sync" := by
  unfold SyncService.syncMapping NotionService.fetchOpenIssues DiscordServerService.cleanup
    NotionService.testConnection DiscordServerService.testConnection
  by_cases hn : env.notionTest conn.id
  · by_cases hd : env.discordTest chan.channelId
    · rcases hf : env.fetchOpen conn.id with e | L
      · simp [hn, hd, hf, syncMappingFail_logs, h, addCall]
      · rcases hsel : env.dbFail (DbOp.selectIssuesByConnection conn.id) with _ | e
        · rcases hcl : env.cleanupFail chan.channelId with _ | e
          · simp only [hn, hd, hf, hsel, hcl, Bool.not_true, not_true_eq_false,
              if_false, ite_false, ite_true, if_true]
            simp [logSyncOperation_logs, h, removeLoop_syncLogs, processLoop_syncLogs, addCall]
          · simp only [hn, hd, hf, hsel, hcl, Bool.not_true, not_true_eq_false,
              if_false, ite_false, ite_true, if_true]
            simp [syncMappingFail_logs, h, removeLoop_syncLogs, processLoop_syncLogs, addCall]
        · simp [hn, hd, hf, hsel, syncMappingFail_logs, h, addCall]
    · simp [hn, hd, syncMappingFail_logs, h]
  · simp [hn, syncMappingFail_logs, h]

lemma syncMapping_fetch_error (env : Env) (mapping : SyncMapping)
    (conn : NotionConnection) (chan : DiscordChannel) (s : St) (e : String)
    (hn : env.notionTest conn.id = true)
    (hd : env.discordTest chan.channelId = true)
    (hf : env.fetchOpen conn.id = Except.error e)
    (h : env.dbFail DbOp.insertLog = none) :
    (SyncService.syncMapping env mapping conn chan s).1 =
      { success := false, issuesProcessed := 0
        errors := ["Mapping sync failed: " ++ e], warnings := [] } ∧
    ∃ entry : SyncLog,
      (SyncService.syncMapping env mapping conn chan s).2.db.syncLogs =
        s.db.syncLogs ++ [entry] ∧
      entry.syncMappingId = some mapping.id ∧ entry.operation = "sync" ∧
      entry.status = "error" := by
  constructor
  · unfold SyncService.syncMapping NotionService.fetchOpenIssues
      NotionService.testConnection DiscordServerService.testConnection
    simp [hn, hd, hf, syncMappingFail_fst]
  · unfold SyncService.syncMapping NotionService.fetchOpenIssues
      NotionService.testConnection DiscordServerService.testConnection
    simp [hn, hd, hf, syncMappingFail_logs, h, addCall]


lemma fullLoop_logs (env : Env) (h : env.dbFail DbOp.insertLog = none) :
    ∀ (ms : List (SyncMapping × NotionConnection × DiscordChannel))
      (acc : SyncResult) (s : St),
      ∃ t, (SyncService.fullLoop env ms acc s).2.db.syncLogs = s.db.syncLogs ++ t ∧
        ∀ p ∈ ms, ∃ entry ∈ t, entry.syncMappingId = some p.1.id ∧
          entry.operation = "sync" := by
  intro ms
  induction ms with
  | nil => intro acc s; exact ⟨[], by simp [SyncService.fullLoop], by simp⟩
  | cons p rest ih =>
    intro acc s
    obtain ⟨m, c, d⟩ := p
    unfold SyncService.fullLoop
    obtain ⟨entry, he, hid, hop⟩ := syncMapping_logs env m c d s h
    rcases hsm : SyncService.syncMapping env m c d s with ⟨r1, s1⟩
    rw [hsm] at he
    obtain ⟨t2, ht2, hall⟩ := ih
      { success := acc.success && r1.success
        issuesProcessed := acc.issuesProcessed + r1.issuesProcessed
        errors := acc.errors ++ r1.errors
        warnings := acc.warnings ++ r1.warnings } s1
    refine ⟨entry :: t2, ?_, ?_⟩
    · simp only at he
      rw [ht2, he, List.append_assoc]
      simp
    · intro q hq
      rcases List.mem_cons.mp hq with heq | hq2
      · subst heq
        exact ⟨entry, List.mem_cons_self entry t2, hid, hop⟩
      · obtain ⟨entry2, hmem2, hp2⟩ := hall q hq2
        exact ⟨entry2, List.mem_cons_of_mem entry hmem2, hp2⟩

lemma fullLoop_fetch_error_entry (env : Env)
    (mj : SyncMapping) (cj : NotionConnection) (dj : DiscordChannel) (e : String)
    (h : env.dbFail DbOp.insertLog = none)
    (hn : env.notionTest cj.id = true)
    (hd : env.discordTest dj.channelId = true)
    (hf : env.fetchOpen cj.id = Except.error e) :
    ∀ (ms : List (SyncMapping × NotionConnection × DiscordChannel))
      (acc : SyncResult) (s : St), (mj, cj, dj) ∈ ms →
      ∃ entry ∈ (SyncService.fullLoop env ms acc s).2.db.syncLogs,
        entry.syncMappingId = some mj.id ∧ entry.operation = "sync" ∧
        entry.status = "error" := by
  intro ms
  induction ms with
  | nil => intro acc s hmem; simp at hmem
  | cons p rest ih =>
    intro acc s hmem
    obtain ⟨m, c, d⟩ := p
    unfold SyncService.fullLoop
    rcases List.mem_cons.mp hmem with heq | hmem2
    · simp only [Prod.mk.injEq] at heq
      obtain ⟨rfl, rfl, rfl⟩ := heq
      obtain ⟨hres, entry, he, hid, hop, hst⟩ :=
        syncMapping_fetch_error env mj cj dj s e hn hd hf h
      rcases hsm : SyncService.syncMapping env mj cj dj s with ⟨r1, s1⟩
      rw [hsm] at he
      simp only at he
      obtain ⟨t2, ht2, _⟩ := fullLoop_logs env h rest
        { success := acc.success && r1.success
          issuesProcessed := acc.issuesProcessed + r1.issuesProcessed
          errors := acc.errors ++ r1.errors
          warnings := acc.warnings ++ r1.warnings } s1
      refine ⟨entry, ?_, hid, hop, hst⟩
      rw [ht2, he]
      simp
    · rcases hsm : SyncService.syncMapping env m c d s with ⟨r1, s1⟩
      exact ih _ _ hmem2

lemma fullLoop_errors_mono (env : Env) :
    ∀ (ms : List (SyncMapping × NotionConnection × DiscordChannel))
      (acc : SyncResult) (s : St),
      ∃ t, (SyncService.fullLoop env ms acc s).1.errors = acc.errors ++ t := by
  intro ms
  induction ms with
  | nil => intro acc s; exact ⟨[], by simp [SyncService.fullLoop]⟩
  | cons p rest ih =>
    intro acc s
    obtain ⟨m, c, d⟩ := p
    unfold SyncService.fullLoop
    rcases hsm : SyncService.syncMapping env m c d s with ⟨r1, s1⟩
    obtain ⟨t2, ht2⟩ := ih
      { success := acc.success && r1.success
        issuesProcessed := acc.issuesProcessed + r1.issuesProcessed
        errors := acc.errors ++ r1.errors
        warnings := acc.warnings ++ r1.warnings } s1
    refine ⟨r1.errors ++ t2, ?_⟩
    simp only at ht2
    rw [ht2, List.append_assoc]

lemma fullLoop_fetch_error_errmem (env : Env)
    (mj : SyncMapping) (cj : NotionConnection) (dj : DiscordChannel) (e : String)
    (h : env.dbFail DbOp.insertLog = none)
    (hn : env.notionTest cj.id = true)
    (hd : env.discordTest dj.channelId = true)
    (hf : env.fetchOpen cj.id = Except.error e) :
    ∀ (ms : List (SyncMapping × NotionConnection × DiscordChannel))
      (acc : SyncResult) (s : St), (mj, cj, dj) ∈ ms →
      ("Mapping sync failed: " ++ e) ∈ (SyncService.fullLoop env ms acc s).1.errors := by
  intro ms
  induction ms with
  | nil => intro acc s hmem; simp at hmem
  | cons p rest ih =>
    intro acc s hmem
    obtain ⟨m, c, d⟩ := p
    unfold SyncService.fullLoop
    rcases List.mem_cons.mp hmem with heq | hmem2
    · simp only [Prod.mk.injEq] at heq
      obtain ⟨rfl, rfl, rfl⟩ := heq
      obtain ⟨hres, _⟩ := syncMapping_fetch_error env mj cj dj s e hn hd hf h
      rcases hsm : SyncService.syncMapping env mj cj dj s with ⟨r1, s1⟩
      rw [hsm] at hres
      simp only at hres
      obtain ⟨t2, ht2⟩ := fullLoop_errors_mono env rest
        { success := acc.success && r1.success
          issuesProcessed := acc.issuesProcessed + r1.issuesProcessed
          errors := acc.errors ++ r1.errors
          warnings := acc.warnings ++ r1.warnings } s1
      rw [ht2]
      subst hres
      simp
    · rcases hsm : SyncService.syncMapping env m c d s with ⟨r1, s1⟩
      exact ih _ _ hmem2

lemma fullLoop_success_of (env : Env) :
    ∀ (ms : List (SyncMapping × NotionConnection × DiscordChannel))
      (acc : SyncResult) (s : St),
      (∀ p ∈ ms, env.notionTest p.2.1.id = true ∧
        env.discordTest p.2.2.channelId = true ∧
        (∃ L, env.fetchOpen p.2.1.id = Except.ok L) ∧
        env.dbFail (DbOp.selectIssuesByConnection p.2.1.id) = none ∧
        env.cleanupFail p.2.2.channelId = none) →
      (SyncService.fullLoop env ms acc s).1.success = acc.success := by
  intro ms
  induction ms with
  | nil => intro acc s _; simp [SyncService.fullLoop]
  | cons p rest ih =>
    intro acc s hall
    obtain ⟨m, c, d⟩ := p
    unfold SyncService.fullLoop
    obtain ⟨hn, hd, ⟨L, hf⟩, hsel, hcl⟩ := hall (m, c, d) (List.mem_cons_self _ _)
    have hsucc := syncMapping_success_of env m c d s L hn hd hf hsel hcl
    rcases hsm : SyncService.syncMapping env m c d s with ⟨r1, s1⟩
    rw [hsm] at hsucc
    simp only at hsucc
    rw [ih _ s1 (fun q hq => hall q (List.mem_cons_of_mem _ hq))]
    simp [hsucc]


lemma createIssue_spec (env : Env) (i : NotionIssue) (conn : NotionConnection)
    (chan : DiscordChannel) (chId : String) (s : St)
    (h1 : env.dbFail (DbOp.insertIssue i.id) = none)
    (h2 : env.dbFail (DbOp.insertMessage i.id) = none) :
    (SyncService.createIssue env i conn chan chId s).1 = Except.ok () ∧
    (SyncService.createIssue env i conn chan chId s).2.db.issues =
      s.db.issues ++ [SyncService.newIssueRow env i conn] ∧
    (postOk env chan.channelId i = true →
      ∃ m, env.sendEmbed chan.channelId i = some m ∧
        (SyncService.createIssue env i conn chan chId s).2.db.discordMessages =
          s.db.discordMessages ++
            [{ id := "uuid-" ++ toString s.uuidCounter, issueId := i.id
               discordChannelId := chId, messageId := m }]) ∧
    (postOk env chan.channelId i = false →
      (SyncService.createIssue env i conn chan chId s).2.db.discordMessages =
        s.db.discordMessages) ∧
    (env.sendEmbed chan.channelId i = none →
      (SyncService.createIssue env i conn chan chId s).2.consoleErrors =
        s.consoleErrors ++ ["Failed to send Discord embed",
          "Failed to post issue " ++ i.id ++ " to Discord - no messageId returned"]) := by
  unfold SyncService.createIssue DiscordServerService.postIssue
  rcases h3 : env.sendEmbed chan.channelId i with _ | m
  · simp [postOk, h1, h2, h3, addCall, addConsole, freshUuid]
  · by_cases hm : m = ""
    · simp [postOk, h1, h2, h3, hm, addCall, addConsole, freshUuid]
    · simp [postOk, h1, h2, h3, hm, addCall, addConsole, freshUuid]

lemma processLoop_create (env : Env) (conn : NotionConnection) (chan : DiscordChannel)
    (chId : String) (exIds : List String)
    (hdb : ∀ op, env.dbFail op = none) :
    ∀ (L : List NotionIssue) (acc : SyncResult) (s : St),
      (∀ i ∈ L, i.id ∉ exIds) →
      (SyncService.processLoop env conn chan chId exIds L acc s).1 =
        { acc with issuesProcessed := acc.issuesProcessed + L.length } ∧
      (∃ t, (SyncService.processLoop env conn chan chId exIds L acc s).2.db.discordMessages =
        s.db.discordMessages ++ t) ∧
      (∀ i ∈ L, postOk env chan.channelId i = true →
        ∃ r ∈ (SyncService.processLoop env conn chan chId exIds L acc s).2.db.discordMessages,
          r.issueId = i.id) := by
  intro L
  induction L with
  | nil =>
    intro acc s _
    refine ⟨by simp [SyncService.processLoop], ⟨[], by simp [SyncService.processLoop]⟩, ?_⟩
    intro i hi
    simp at hi
  | cons i rest ih =>
    intro acc s hfresh
    have hires : i.id ∉ exIds := hfresh i (List.mem_cons_self _ _)
    have spec := createIssue_spec env i conn chan chId s (hdb _) (hdb _)
    unfold SyncService.processLoop
    rw [if_neg hires]
    rcases hc : SyncService.createIssue env i conn chan chId s with ⟨r1, s2⟩
    rw [hc] at spec
    simp only at spec
    obtain ⟨ha, hb, hcp, hdp, hcons⟩ := spec
    subst ha
    obtain ⟨ih1, ⟨t2, ih2⟩, ih3⟩ := ih
      { acc with issuesProcessed := acc.issuesProcessed + 1 } s2
      (fun j hj => hfresh j (List.mem_cons_of_mem _ hj))
    refine ⟨?_, ?_, ?_⟩
    · rw [ih1]
      simp [Nat.add_assoc, Nat.add_comm 1 rest.length]
    · by_cases hpost : postOk env chan.channelId i = true
      · obtain ⟨m, hsome, hmsg⟩ := hcp hpost
        refine ⟨[{ id := "uuid-" ++ toString s.uuidCounter, issueId := i.id
                   discordChannelId := chId, messageId := m }] ++ t2, ?_⟩
        rw [ih2, hmsg, List.append_assoc]
      · have hmsg := hdp (by simpa using hpost)
        refine ⟨t2, ?_⟩
        rw [ih2, hmsg]
    · intro j hj hpostj
      rcases List.mem_cons.mp hj with rfl | hj2
      · obtain ⟨m, hsome, hmsg⟩ := hcp hpostj
        refine ⟨{ id := "uuid-" ++ toString s.uuidCounter, issueId := j.id
                  discordChannelId := chId, messageId := m }, ?_, rfl⟩
        rw [ih2, hmsg]
        simp
      · exact ih3 j hj2 hpostj


lemma syncMapping_fresh_run (env : Env) (mapping : SyncMapping)
    (conn : NotionConnection) (chan : DiscordChannel) (s : St) (L : List NotionIssue)
    (hn : env.notionTest conn.id = true)
    (hd : env.discordTest chan.channelId = true)
    (hf : env.fetchOpen conn.id = Except.ok L)
    (hpf : mapping.projectFilter = none)
    (hex : ∀ r ∈ s.db.issues, (r.notionConnectionId == conn.id) = false)
    (hdb : ∀ op, env.dbFail op = none)
    (hcl : env.cleanupFail chan.channelId = none) :
    (SyncService.syncMapping env mapping conn chan s).1 =
      { success := true, issuesProcessed := L.length, errors := [], warnings := [] } ∧
    (∀ i ∈ L, postOk env chan.channelId i = true →
      ∃ r ∈ (SyncService.syncMapping env mapping conn chan s).2.db.discordMessages,
        r.issueId = i.id) := by
  have hexn : List.filter (fun r => r.notionConnectionId == conn.id) s.db.issues = [] := by
    rw [List.filter_eq_nil_iff]
    intro a ha
    simp [hex a ha]
  obtain ⟨hp1, ⟨t, hp2⟩, hp3⟩ := processLoop_create env conn chan mapping.discordChannelId
    ([] : List String) hdb L
    { success := true, issuesProcessed := 0, errors := [], warnings := [] }
    (addCall s (ExtCall.fetchOpen conn.id)) (by simp)
  simp only [addCall] at hp1 hp2 hp3
  unfold SyncService.syncMapping NotionService.fetchOpenIssues DiscordServerService.cleanup
    NotionService.testConnection DiscordServerService.testConnection
  simp only [hn, hd, hf, hpf, hcl, hdb, Bool.not_true, not_true_eq_false, if_false,
    ite_false, ite_true, if_true, SyncService.filteredIssues, addCall, hexn,
    List.map_nil, List.filter_nil, SyncService.removeLoop, logSyncOperation_messages]
  constructor
  · rw [hp1]
    simp
  · intro i hi hpost
    obtain ⟨r, hrmem, hrid⟩ := hp3 i hi hpost
    refine ⟨r, ?_, hrid⟩
    simpa [addCall] using hrmem


/-- Claim C1 (code bug evidence): in the out-of-band-deletion scenario the
engine calls the adapter update once, receives the NotFound verdict (the
adapter returns `false`), and then posts nothing and leaves the stale
DeliveryLink untouched, while reporting the run as an unqualified success —
the self-healing repost the spec (and the adapter code's own comment)
promises never happens. -/
theorem C1_no_self_healing_repost :
    (SyncService.syncMapping envC1 mapM1 connN1 chanD1 stC1).2.calls =
      [ExtCall.fetchOpen "n1", ExtCall.updateMsg "C100" "msg1" "A1"] ∧
    (SyncService.syncMapping envC1 mapM1 connN1 chanD1 stC1).2.db.discordMessages =
      [linkA1] ∧
    (SyncService.syncMapping envC1 mapM1 connN1 chanD1 stC1).1.success = true ∧
    (SyncService.syncMapping envC1 mapM1 connN1 chanD1 stC1).1.errors = [] := by
  refine ⟨?_, ?_, ?_, ?_⟩ <;> rfl

/-- Claim C2 (counterexample): a run in which one per-record operation fails
(the cache insert for `A1` rejects) still returns `success = true`, with the
failure recorded only in `errors` — refuting "success is false whenever at
least one per-record error occurred". -/
theorem C2_counterexample :
    (SyncService.syncMapping envC2 mapM1 connN1 chanD1 st0).1.success = true ∧
    (SyncService.syncMapping envC2 mapM1 connN1 chanD1 st0).1.errors =
      ["Failed to process issue A1: db down"] := by
  exact ⟨rfl, rfl⟩

/-- Claim C2 (amended): whenever the mapping-level steps succeed (both
connection tests, the fetch, the cache query and the cleanup), the returned
SyncResult has `success = true` no matter how many per-record errors
occurred; per-record failures land only in `errors`, and no failure rolls
back the other operations. -/
theorem C2_success_independent_of_record_errors (env : Env) (mapping : SyncMapping)
    (conn : NotionConnection) (chan : DiscordChannel) (s : St) (L : List NotionIssue)
    (h1 : env.notionTest conn.id = true)
    (h2 : env.discordTest chan.channelId = true)
    (hf : env.fetchOpen conn.id = Except.ok L)
    (hsel : env.dbFail (DbOp.selectIssuesByConnection conn.id) = none)
    (hcl : env.cleanupFail chan.channelId = none) :
    (SyncService.syncMapping env mapping conn chan s).1.success = true :=
  syncMapping_success_of env mapping conn chan s L h1 h2 hf hsel hcl

/-- Claim C2 witness: the amended theorem applied to the run of
`C2_counterexample`, whose errors list is non-empty. -/
theorem C2_witness :
    (SyncService.syncMapping envC2 mapM1 connN1 chanD1 st0).1.success = true :=
  C2_success_independent_of_record_errors envC2 mapM1 connN1 chanD1 st0 [issueA1]
    rfl rfl rfl rfl rfl

/-- Claim C4 (counterexample): when the single record's Post fails, the
record is nevertheless cached (the insert happens before the Post), no link
exists, and the run reports one processed issue with an empty errors list —
refuting "only on success of that Post … the record is neither cached nor
linked, the error is recorded". -/
theorem C4_counterexample :
    (SyncService.syncMapping envC4 mapM1 connN1 chanD1 st0).2.db.issues.map (fun r => r.id) =
      ["A1"] ∧
    (SyncService.syncMapping envC4 mapM1 connN1 chanD1 st0).2.db.discordMessages = [] ∧
    (SyncService.syncMapping envC4 mapM1 connN1 chanD1 st0).1.errors = [] ∧
    (SyncService.syncMapping envC4 mapM1 connN1 chanD1 st0).1.issuesProcessed = 1 := by
  refine ⟨?_, ?_, ?_, ?_⟩ <;> rfl

/-- Claim C4 (amended): `createIssue` first caches the record, then calls
Post; only when Post returns a usable messageId is a DeliveryLink persisted;
when Post fails the record stays cached, no link is written, the failure is
reported to the console side channel only, and the call returns normally so
the batch continues. -/
theorem C4_create_caches_then_posts (env : Env) (i : NotionIssue)
    (conn : NotionConnection) (chan : DiscordChannel) (chId : String) (s : St)
    (h1 : env.dbFail (DbOp.insertIssue i.id) = none)
    (h2 : env.dbFail (DbOp.insertMessage i.id) = none) :
    (SyncService.createIssue env i conn chan chId s).1 = Except.ok () ∧
    (SyncService.createIssue env i conn chan chId s).2.db.issues =
      s.db.issues ++ [SyncService.newIssueRow env i conn] ∧
    (postOk env chan.channelId i = true →
      ∃ m, env.sendEmbed chan.channelId i = some m ∧
        (SyncService.createIssue env i conn chan chId s).2.db.discordMessages =
          s.db.discordMessages ++
            [{ id := "uuid-" ++ toString s.uuidCounter, issueId := i.id
               discordChannelId := chId, messageId := m }]) ∧
    (postOk env chan.channelId i = false →
      (SyncService.createIssue env i conn chan chId s).2.db.discordMessages =
        s.db.discordMessages) ∧
    (env.sendEmbed chan.channelId i = none →
      (SyncService.createIssue env i conn chan chId s).2.consoleErrors =
        s.consoleErrors ++ ["Failed to send Discord embed",
          "Failed to post issue " ++ i.id ++ " to Discord - no messageId returned"]) :=
  createIssue_spec env i conn chan chId s h1 h2

/-- Claim C4 witness: the amended theorem at the failing-post oracle. -/
theorem C4_witness :
    (SyncService.createIssue envC4 issueA1 connN1 chanD1 "dc1" st0).1 = Except.ok () ∧
    (SyncService.createIssue envC4 issueA1 connN1 chanD1 "dc1" st0).2.db.issues =
      st0.db.issues ++ [SyncService.newIssueRow envC4 issueA1 connN1] ∧
    (postOk envC4 chanD1.channelId issueA1 = true →
      ∃ m, envC4.sendEmbed chanD1.channelId issueA1 = some m ∧
        (SyncService.createIssue envC4 issueA1 connN1 chanD1 "dc1" st0).2.db.discordMessages =
          st0.db.discordMessages ++
            [{ id := "uuid-" ++ toString st0.uuidCounter, issueId := issueA1.id
               discordChannelId := "dc1", messageId := m }]) ∧
    (postOk envC4 chanD1.channelId issueA1 = false →
      (SyncService.createIssue envC4 issueA1 connN1 chanD1 "dc1" st0).2.db.discordMessages =
        st0.db.discordMessages) ∧
    (envC4.sendEmbed chanD1.channelId issueA1 = none →
      (SyncService.createIssue envC4 issueA1 connN1 chanD1 "dc1" st0).2.consoleErrors =
        st0.consoleErrors ++ ["Failed to send Discord embed",
          "Failed to post issue " ++ issueA1.id ++ " to Discord - no messageId returned"]) :=
  C4_create_caches_then_posts envC4 issueA1 connN1 chanD1 "dc1" st0 rfl rfl

/-- Claim C6 (counterexample): under a mapping whose projectFilter is the
empty string — a value different from the `all` sentinel — filtering is
bypassed (the empty string is falsy) and a DeliveryLink is created for a
record whose project (`core`) differs from the filter value. -/
theorem C6_counterexample :
    (SyncService.syncMapping envC6 mapEmptyFilter connN1 chanD1 st0).2.db.discordMessages =
      [linkW] ∧
    mapEmptyFilter.projectFilter = some "" ∧ issueA1.project ≠ "" := by
  refine ⟨rfl, rfl, ?_⟩
  decide

/-- Claim C6 (amended): for every mapping whose projectFilter is a non-empty
value `P` other than `all`, every DeliveryLink row that a mapping run adds
belongs to a fetched record whose project equals `P` — no record with a
different project is ever linked under that mapping. -/
theorem C6_filter_restricts_links (env : Env) (mapping : SyncMapping)
    (conn : NotionConnection) (chan : DiscordChannel) (s : St) (P : String)
    (r : DiscordMessage)
    (hP : mapping.projectFilter = some P) (hne : P ≠ "") (hna : P ≠ "all")
    (hr : r ∈ (SyncService.syncMapping env mapping conn chan s).2.db.discordMessages) :
    r ∈ s.db.discordMessages ∨
      ∃ L, env.fetchOpen conn.id = Except.ok L ∧
        ∃ i ∈ L, i.project = P ∧ r.issueId = i.id := by
  rcases syncMapping_mem_links env mapping conn chan s r hr with h | ⟨L, hf, i, hi, hid, _⟩
  · exact Or.inl h
  · simp only [SyncService.filteredIssues, hP] at hi
    rw [if_pos ⟨hne, hna⟩] at hi
    rcases List.mem_filter.mp hi with ⟨hiL, hproj⟩
    exact Or.inr ⟨L, hf, i, hiL, by simpa using hproj, hid⟩

/-- Claim C6 witness: the amended theorem at a run with filter `core` whose
single created link belongs to a `core` record. -/
theorem C6_witness :
    linkW ∈ (SyncService.syncMapping envC6 mapCoreFilter connN1 chanD1 st0).2.db.discordMessages ∧
    (linkW ∈ st0.db.discordMessages ∨
      ∃ L, envC6.fetchOpen connN1.id = Except.ok L ∧
        ∃ i ∈ L, i.project = "core" ∧ linkW.issueId = i.id) := by
  refine ⟨?_, ?_⟩
  · decide
  · exact C6_filter_restricts_links envC6 mapCoreFilter connN1 chanD1 st0 "core" linkW
      rfl (by decide) (by decide) (by decide)

/-- Claim C8: appending to the operation log never raises to its caller —
the result is always `ok`, and when the underlying insert fails the database
is left untouched and the failure goes to the console side channel. -/
theorem C8_log_append_never_throws (env : Env) (mid : Option String)
    (op st2 msg errD : String) (n : Nat) (s : St) :
    (SyncService.logSyncOperation env mid op st2 msg errD n s).1 = Except.ok () ∧
    (∀ e, env.dbFail DbOp.insertLog = some e →
      (SyncService.logSyncOperation env mid op st2 msg errD n s).2.db = s.db ∧
      (SyncService.logSyncOperation env mid op st2 msg errD n s).2.consoleErrors =
        s.consoleErrors ++ ["Failed to log sync operation: " ++ e]) :=
  ⟨logSyncOperation_fst env mid op st2 msg errD n s,
    fun e he => logSyncOperation_fail env mid op st2 msg errD n s e he⟩

/-- Claim C8 witness: the theorem at an oracle whose log insert rejects. -/
theorem C8_witness :
    (SyncService.logSyncOperation envC8w (some "map1") "sync" "error" "m" "d" 0 st0).1 =
      Except.ok () ∧
    ((SyncService.logSyncOperation envC8w (some "map1") "sync" "error" "m" "d" 0 st0).2.db =
      st0.db ∧
    (SyncService.logSyncOperation envC8w (some "map1") "sync" "error" "m" "d" 0 st0).2.consoleErrors =
      st0.consoleErrors ++ ["Failed to log sync operation: disk full"]) :=
  ⟨(C8_log_append_never_throws envC8w (some "map1") "sync" "error" "m" "d" 0 st0).1,
    (C8_log_append_never_throws envC8w (some "map1") "sync" "error" "m" "d" 0 st0).2 "disk full" rfl⟩

/-- Claim C9: every DeliveryLink row added by either the create path or the
update path carries a messageId that a successful `Post` (send of the embed)
returned for that very record — when the post yields no messageId, no link
row is inserted. -/
theorem C9_links_require_post (env : Env) (i : NotionIssue) (conn : NotionConnection)
    (chan : DiscordChannel) (chId : String) (s : St) (r : DiscordMessage)
    (hr : r ∈ (SyncService.createIssue env i conn chan chId s).2.db.discordMessages ∨
      r ∈ (SyncService.updateIssue env i conn chan chId s).2.db.discordMessages) :
    r ∈ s.db.discordMessages ∨
      (r.issueId = i.id ∧ env.sendEmbed chan.channelId i = some r.messageId ∧
        r.messageId ≠ "") := by
  rcases hr with hr | hr
  · rcases createIssue_mem_links env i conn chan chId s r hr with h | ⟨h1, _, h3, h4⟩
    · exact Or.inl h
    · exact Or.inr ⟨h1, h3, h4⟩
  · rcases updateIssue_mem_links env i conn chan chId s r hr with h | ⟨h1, _, h3, h4⟩
    · exact Or.inl h
    · exact Or.inr ⟨h1, h3, h4⟩

/-- Claim C9 witness: the theorem at the concrete create that inserts
`linkW`, whose messageId is exactly what the post returned. -/
theorem C9_witness :
    (linkW ∈ (SyncService.createIssue envBase issueA1 connN1 chanD1 "dc1" st0).2.db.discordMessages ∨
      linkW ∈ (SyncService.updateIssue envBase issueA1 connN1 chanD1 "dc1" st0).2.db.discordMessages) ∧
    (linkW ∈ st0.db.discordMessages ∨
      (linkW.issueId = issueA1.id ∧
        envBase.sendEmbed chanD1.channelId issueA1 = some linkW.messageId ∧
        linkW.messageId ≠ "")) :=
  ⟨Or.inl (by decide),
    C9_links_require_post envBase issueA1 connN1 chanD1 "dc1" st0 linkW (Or.inl (by decide))⟩

/-- Claim C10 (counterexample): a full sync in which one per-record failure
occurred (and was recorded in `errors`) still returns `success = true` —
refuting "converting any failure inside the run into entries of the errors
list and success = false". -/
theorem C10_counterexample :
    (SyncService.runFullSync envC2 st0).1.success = true ∧
    (SyncService.runFullSync envC2 st0).1.errors =
      ["Failed to process issue A1: db down"] := by
  exact ⟨rfl, rfl⟩


/-- Claim C3 (counterexample): over two fresh records where exactly one Post
fails, the run reports `issuesProcessed = 2` (not N−1 = 1) and an empty
errors list (not one error); only the N−1 = 1 other DeliveryLink exists. -/
theorem C3_counterexample :
    (SyncService.syncMapping envC3 mapM1 connN1 chanD1 st0).1.issuesProcessed = 2 ∧
    (SyncService.syncMapping envC3 mapM1 connN1 chanD1 st0).1.errors = [] ∧
    (SyncService.syncMapping envC3 mapM1 connN1 chanD1 st0).2.db.discordMessages.map
      (fun r => r.issueId) = ["B2"] := by
  refine ⟨?_, ?_, ?_⟩ <;> rfl

/-- Claim C3 (amended): over N fresh records where exactly one record's Post
fails and every other external call succeeds, the run completes with
`issuesProcessed = N` and an empty errors list (a failed Post is not
recorded as a per-record error), a DeliveryLink exists for each of the other
N−1 records, and no link exists for the failed record. -/
theorem C3_post_failure_counts (env : Env) (mapping : SyncMapping)
    (conn : NotionConnection) (chan : DiscordChannel) (s : St)
    (L1 : List NotionIssue) (b : NotionIssue) (L2 : List NotionIssue)
    (hn : env.notionTest conn.id = true)
    (hd : env.discordTest chan.channelId = true)
    (hf : env.fetchOpen conn.id = Except.ok (L1 ++ b :: L2))
    (hpf : mapping.projectFilter = none)
    (hex : ∀ r ∈ s.db.issues, r.notionConnectionId ≠ conn.id)
    (hdb : ∀ op, env.dbFail op = none)
    (hcl : env.cleanupFail chan.channelId = none)
    (hpost : ∀ i, i ∈ L1 ∨ i ∈ L2 → postOk env chan.channelId i = true)
    (hsendb : env.sendEmbed chan.channelId b = none)
    (hinit : ∀ r ∈ s.db.discordMessages, r.issueId ≠ b.id)
    (hids : ∀ i, i ∈ L1 ∨ i ∈ L2 → i.id ≠ b.id) :
    (SyncService.syncMapping env mapping conn chan s).1 =
      { success := true, issuesProcessed := (L1 ++ b :: L2).length
        errors := [], warnings := [] } ∧
    (∀ i, i ∈ L1 ∨ i ∈ L2 →
      ∃ r ∈ (SyncService.syncMapping env mapping conn chan s).2.db.discordMessages,
        r.issueId = i.id) ∧
    (∀ r ∈ (SyncService.syncMapping env mapping conn chan s).2.db.discordMessages,
      r.issueId ≠ b.id) := by
  obtain ⟨hres, hlinks⟩ := syncMapping_fresh_run env mapping conn chan s (L1 ++ b :: L2)
    hn hd hf hpf (fun r hrr => by simpa using hex r hrr) hdb hcl
  refine ⟨hres, ?_, ?_⟩
  · intro i hi
    refine hlinks i ?_ (hpost i hi)
    rcases hi with hi | hi
    · exact List.mem_append_left _ hi
    · exact List.mem_append_right _ (List.mem_cons_of_mem _ hi)
  · intro r hr
    rcases syncMapping_mem_links env mapping conn chan s r hr with
      h | ⟨L, hfL, i, hi, hid, _, hsend, _⟩
    · exact hinit r h
    · rw [hf] at hfL
      injection hfL with hLL
      subst hLL
      rw [hpf] at hi
      simp only [SyncService.filteredIssues] at hi
      rcases List.mem_append.mp hi with hiL | hiR
      · rw [hid]
        exact hids i (Or.inl hiL)
      · rcases List.mem_cons.mp hiR with rfl | hiL2
        · rw [hsendb] at hsend
          cases hsend
        · rw [hid]
          exact hids i (Or.inr hiL2)

/-- Claim C3 witness: the amended theorem on the two-record run of
`C3_counterexample`. -/
theorem C3_witness :
    (SyncService.syncMapping envC3 mapM1 connN1 chanD1 st0).1 =
      { success := true, issuesProcessed := 2, errors := [], warnings := [] } ∧
    (∃ r ∈ (SyncService.syncMapping envC3 mapM1 connN1 chanD1 st0).2.db.discordMessages,
      r.issueId = issueB2.id) := by
  have h := C3_post_failure_counts envC3 mapM1 connN1 chanD1 st0 [] issueA1 [issueB2]
    rfl rfl rfl rfl (by intro r hrr; simp [st0, emptyDB] at hrr)
    (fun op => rfl) rfl
    (by intro i hi
        rcases hi with hi | hi
        · simp at hi
        · simp at hi
          subst hi
          decide)
    rfl
    (by intro r hrr; simp [st0, emptyDB] at hrr)
    (by intro i hi
        rcases hi with hi | hi
        · simp at hi
        · simp at hi
          subst hi
          decide)
  exact ⟨h.1, h.2.1 issueB2 (Or.inr (by simp))⟩

/-- Claim C7: when the fetch for one selected mapping fails while the
mapping query and log inserts succeed, the full sync writes an error `sync`
log entry for that mapping, still writes a `sync` entry for every selected
mapping (each mapping's run completes), and surfaces the failed mapping's
error in the aggregate errors list. -/
theorem C7_fetch_failure_isolated (env : Env) (s : St)
    (mj : SyncMapping) (cj : NotionConnection) (dj : DiscordChannel) (e : String)
    (hselm : env.dbFail DbOp.selectMappings = none)
    (hlog : env.dbFail DbOp.insertLog = none)
    (hmem : (mj, cj, dj) ∈ SyncService.selectActiveMappings s.db)
    (hn : env.notionTest cj.id = true)
    (hd : env.discordTest dj.channelId = true)
    (hf : env.fetchOpen cj.id = Except.error e) :
    (∃ entry ∈ (SyncService.runFullSync env s).2.db.syncLogs,
      entry.syncMappingId = some mj.id ∧ entry.operation = "sync" ∧
      entry.status = "error") ∧
    (∀ p ∈ SyncService.selectActiveMappings s.db,
      ∃ entry ∈ (SyncService.runFullSync env s).2.db.syncLogs,
        entry.syncMappingId = some p.1.id ∧ entry.operation = "sync") ∧
    ("Mapping sync failed: " ++ e) ∈ (SyncService.runFullSync env s).1.errors := by
  have hentry := fullLoop_fetch_error_entry env mj cj dj e hlog hn hd hf
    (SyncService.selectActiveMappings s.db)
    { success := true, issuesProcessed := 0, errors := [], warnings := [] } s hmem
  have hlogs := fullLoop_logs env hlog (SyncService.selectActiveMappings s.db)
    { success := true, issuesProcessed := 0, errors := [], warnings := [] } s
  have herr := fullLoop_fetch_error_errmem env mj cj dj e hlog hn hd hf
    (SyncService.selectActiveMappings s.db)
    { success := true, issuesProcessed := 0, errors := [], warnings := [] } s hmem
  unfold SyncService.runFullSync
  simp only [hselm]
  rcases hfl : SyncService.fullLoop env (SyncService.selectActiveMappings s.db)
      { success := true, issuesProcessed := 0, errors := [], warnings := [] } s with ⟨accF, sF⟩
  rw [hfl] at hentry hlogs herr
  simp only at hentry hlogs herr
  have hglog := logSyncOperation_logs env none "full_sync"
    (if accF.success then "success" else "error")
    ("Processed " ++ toString accF.issuesProcessed ++ " issues")
    (String.intercalate "; " accF.errors) accF.issuesProcessed sF hlog
  refine ⟨?_, ?_, ?_⟩
  · obtain ⟨entry, hment, hprops⟩ := hentry
    refine ⟨entry, ?_, hprops⟩
    simp only [hglog]
    exact List.mem_append_left _ hment
  · intro p hp
    obtain ⟨t, ht, hall⟩ := hlogs
    obtain ⟨entry, hment, hprops⟩ := hall p hp
    refine ⟨entry, ?_, hprops⟩
    simp only [hglog, ht]
    exact List.mem_append_left _ (List.mem_append_right _ hment)
  · simpa using herr

/-- Claim C7 witness: the theorem at the one-mapping database whose fetch
fails with `boom`. -/
theorem C7_witness :
    (∃ entry ∈ (SyncService.runFullSync envC7 st0).2.db.syncLogs,
      entry.syncMappingId = some mapM1.id ∧ entry.operation = "sync" ∧
      entry.status = "error") ∧
    (∀ p ∈ SyncService.selectActiveMappings st0.db,
      ∃ entry ∈ (SyncService.runFullSync envC7 st0).2.db.syncLogs,
        entry.syncMappingId = some p.1.id ∧ entry.operation = "sync") ∧
    ("Mapping sync failed: boom") ∈ (SyncService.runFullSync envC7 st0).1.errors :=
  C7_fetch_failure_isolated envC7 st0 mapM1 connN1 chanD1 "boom" rfl rfl (by decide)
    rfl rfl rfl

/-- Claim C10 (amended): runFullSync always hands back a SyncResult — a
failing mapping query is converted into `success = false` with a single
`Full sync failed` error, while a run whose mapping-level steps all succeed
returns `success = true` even when per-record failures were recorded in
`errors`. -/
theorem C10_total_result (env : Env) (s : St) :
    (∀ e, env.dbFail DbOp.selectMappings = some e →
      (SyncService.runFullSync env s).1 =
        { success := false, issuesProcessed := 0
          errors := ["Full sync failed: " ++ e], warnings := [] }) ∧
    ((env.dbFail DbOp.selectMappings = none ∧
      ∀ p ∈ SyncService.selectActiveMappings s.db,
        env.notionTest p.2.1.id = true ∧ env.discordTest p.2.2.channelId = true ∧
        (∃ L, env.fetchOpen p.2.1.id = Except.ok L) ∧
        env.dbFail (DbOp.selectIssuesByConnection p.2.1.id) = none ∧
        env.cleanupFail p.2.2.channelId = none) →
      (SyncService.runFullSync env s).1.success = true) := by
  constructor
  · intro e he
    unfold SyncService.runFullSync
    simp [he]
  · rintro ⟨hsel, hall⟩
    have hs := fullLoop_success_of env (SyncService.selectActiveMappings s.db)
      { success := true, issuesProcessed := 0, errors := [], warnings := [] } s hall
    unfold SyncService.runFullSync
    simp only [hsel]
    rcases hfl : SyncService.fullLoop env (SyncService.selectActiveMappings s.db)
        { success := true, issuesProcessed := 0, errors := [], warnings := [] } s with ⟨accF, sF⟩
    rw [hfl] at hs
    simp only at hs
    simpa using hs

/-- Claim C10 witness: the conversion of a failed mapping query into an
error result. -/
theorem C10_witness :
    (SyncService.runFullSync envSelFail st0).1 =
      { success := false, issuesProcessed := 0
        errors := ["Full sync failed: boom"], warnings := [] } :=
  (C10_total_result envSelFail st0).1 "boom" rfl

/-- Claim C5 (counterexample): the successful resolve interaction is
answered with an `UPDATE_MESSAGE` response — one that edits the original
channel message (clearing its embeds and components) and is not ephemeral —
refuting "responds with an ephemeral acknowledgement … no content edit". -/
theorem C5_counterexample :
    (WebhookRoute.POST envBase reqC5 stC5).1.isEphemeralAck = false ∧
    (WebhookRoute.POST envBase reqC5 stC5).1.editsChannelMessage = true := by
  exact ⟨rfl, rfl⟩

/-- Claim C5 (amended): a valid resolve interaction updates the tracker
status exactly once (the call trace grows by exactly one UpdateStatus call,
so the handler performs no message post, edit or delete through the channel
adapter and no DeliveryLink changes), but the success acknowledgement is an
`UPDATE_MESSAGE` interaction response that edits the original channel
message rather than an ephemeral message; failure acknowledgements are
ephemeral. -/
theorem C5_resolve_updates_tracker_once (env : Env) (req : WebhookRequest) (s : St)
    (interaction : Interaction) (iid : String) (row : Issue) (crow : NotionConnection)
    (hh : req.hasSignatureHeaders = true)
    (hk : req.publicKeyConfigured = true)
    (hv : req.signatureValid = true)
    (hb : req.body = some interaction)
    (ht : interaction.type = 3)
    (hcid : stripFixIssue interaction.customId = some iid)
    (h1 : env.dbFail (DbOp.selectIssueById iid) = none)
    (hfind : s.db.issues.find? (fun r => r.id == iid) = some row)
    (h2 : env.dbFail (DbOp.selectConnectionById row.notionConnectionId) = none)
    (hcfind : s.db.notionConnections.find? (fun c => c.id == row.notionConnectionId) =
      some crow)
    (hupd : env.updateStatus (WebhookRoute.pageIdOf row) "Fixed" = Except.ok ())
    (h3 : env.dbFail (DbOp.updateIssueRow iid) = none)
    (h4 : env.dbFail DbOp.insertLog = none) :
    (WebhookRoute.POST env req s).1 =
      WebhookResponse.updateMessage
        ("✅ Issue \"" ++ row.bugName ++ "\" has been marked as fixed!") ∧
    (WebhookRoute.POST env req s).2.calls =
      s.calls ++ [ExtCall.updateStatus (WebhookRoute.pageIdOf row) "Fixed"] ∧
    (WebhookRoute.POST env req s).2.db.discordMessages = s.db.discordMessages := by
  unfold WebhookRoute.POST WebhookRoute.markFixed NotionService.updateIssueStatus
  simp [hh, hk, hv, hb, ht, hcid, h1, hfind, h2, hcfind, hupd, h3, h4,
    addCall, freshUuid]

/-- Claim C5 witness: the amended theorem on the concrete resolve
interaction for issue `A1`. -/
theorem C5_witness :
    (WebhookRoute.POST envBase reqC5 stC5).1 =
      WebhookResponse.updateMessage "✅ Issue \"bugA\" has been marked as fixed!" ∧
    (WebhookRoute.POST envBase reqC5 stC5).2.calls =
      stC5.calls ++ [ExtCall.updateStatus "A1" "Fixed"] ∧
    (WebhookRoute.POST envBase reqC5 stC5).2.db.discordMessages =
      stC5.db.discordMessages :=
  C5_resolve_updates_tracker_once envBase reqC5 stC5
    { type := 3, customId := "fix_issue_A1", username := some "alice" } "A1" rowA1 connN1
    rfl rfl rfl rfl rfl rfl rfl rfl rfl rfl rfl rfl rfl
